import Mathlib

/-!
# Scene.cpp: initialisation, rendering and update of the portal scene

A shallow embedding of `src/Scene.cpp` (with the declarations of `src/Common.h` and
`src/Math/CMatrix4x4.h`).  The globals of the translation unit are the fields of `State`.
Every call that leaves the translation unit (Direct3D, the Mesh, Model, Camera, Shader and
State modules, the window) is appended to the log `State.calls`; the functions of `Scene.cpp`
are state transformers that follow the source statement by statement; the state after each
statement is bound with `have`, so that a statement sees its predecessor only as a value.

Floating point values are elements of a linearly ordered field `α`; the theorems about the
update step are stated at `α = ℝ`.
-/

namespace Scene

/-! ## Data model -/

/-- A pointer (to a heap object or a Direct3D interface); `0` is `nullptr`. -/
abbrev Ptr := Nat

/-- The `HRESULT` of a Direct3D call. -/
abbrev HRESULT := Int

/-- The `FAILED` macro of the Windows headers: negative results are failures. -/
def FAILED (hr : HRESULT) : Bool := decide (hr < 0)

/-- The three floats of `CVector3`. -/
structure CVector3 (α : Type) where
  x : α
  y : α
  z : α

/-- Component-wise sum, `operator+` of `CVector3`. -/
def CVector3.add {α : Type} [Add α] (v w : CVector3 α) : CVector3 α :=
  ⟨v.x + w.x, v.y + w.y, v.z + w.z⟩

/-- Vector times scalar, `operator*` of `CVector3`. -/
def CVector3.mul {α : Type} [Mul α] (v : CVector3 α) (s : α) : CVector3 α :=
  ⟨v.x * s, v.y * s, v.z * s⟩

/-- The four floats of `ColourRGBA`. -/
structure ColourRGBA (α : Type) where
  r : α
  g : α
  b : α
  a : α

/-- The sixteen floats of `CMatrix4x4` (src/Math/CMatrix4x4.h). -/
structure CMatrix4x4 (α : Type) where
  e00 : α
  e01 : α
  e02 : α
  e03 : α
  e10 : α
  e11 : α
  e12 : α
  e13 : α
  e20 : α
  e21 : α
  e22 : α
  e23 : α
  e30 : α
  e31 : α
  e32 : α
  e33 : α

/-- The struct `PerFrameConstants` of src/Common.h. -/
structure PerFrameConstants (α : Type) where
  viewMatrix : CMatrix4x4 α
  projectionMatrix : CMatrix4x4 α
  viewProjectionMatrix : CMatrix4x4 α
  light1Position : CVector3 α
  padding1 : α
  light1Colour : CVector3 α
  padding2 : α
  light2Position : CVector3 α
  padding3 : α
  light2Colour : CVector3 α
  padding4 : α
  light2Strength : α
  ambientColour : CVector3 α
  specularPower : α
  cameraPosition : CVector3 α
  padding5 : α

/-- The struct `PerModelConstants` of src/Common.h. -/
structure PerModelConstants (α : Type) where
  worldMatrix : CMatrix4x4 α
  objectColour : CVector3 α
  padding6 : α
  textureShiftFactor : α

/-- A global `Model*` together with the object it points to.  `ptr` is the value of the
pointer; the remaining fields are the members of the pointee that `Scene.cpp` sets or reads.
The program assigns these globals only in `InitScene` (a fresh object each) and in
`ReleaseResources`, so no two of them point to the same object. -/
structure Model (α : Type) where
  ptr : Ptr
  mesh : Ptr
  position : CVector3 α
  rotation : CVector3 α
  scale : α

/-- A global `Camera*` together with the object it points to. -/
structure Camera (α : Type) where
  ptr : Ptr
  position : CVector3 α
  rotation : CVector3 α
  nearClip : α
  farClip : α

/-- The struct `D3D11_VIEWPORT`. -/
structure D3D11_VIEWPORT (α : Type) where
  TopLeftX : α
  TopLeftY : α
  Width : α
  Height : α
  MinDepth : α
  MaxDepth : α

/-- The texture formats used by `InitGeometry`. -/
inductive DXGI_FORMAT where
  | R8G8B8A8_UNORM
  | D32_FLOAT
  deriving DecidableEq, Repr

/-- The struct `D3D11_TEXTURE2D_DESC`; `Usage` 0 is `D3D11_USAGE_DEFAULT`. -/
structure D3D11_TEXTURE2D_DESC where
  Width : Int
  Height : Int
  MipLevels : Nat
  ArraySize : Nat
  Format : DXGI_FORMAT
  SampleCount : Nat
  SampleQuality : Nat
  Usage : Nat
  BindFlags : Nat
  CPUAccessFlags : Nat
  MiscFlags : Nat
  deriving DecidableEq, Repr

/-- The flag `D3D10_BIND_SHADER_RESOURCE`. -/
def D3D10_BIND_SHADER_RESOURCE : Nat := 0x8

/-- The flag `D3D10_BIND_RENDER_TARGET`. -/
def D3D10_BIND_RENDER_TARGET : Nat := 0x20

/-- The flag `D3D10_BIND_DEPTH_STENCIL`. -/
def D3D10_BIND_DEPTH_STENCIL : Nat := 0x40

/-- The shader globals declared in Shader.h and loaded by `LoadShaders`. -/
structure Shaders where
  gPixelLightingVertexShader : Ptr
  gPixelLightingPixelShader : Ptr
  gSphereModelVertexShader : Ptr
  gSphereModelPixelShader : Ptr
  gCubeModelVertexShader : Ptr
  gCubeModelPixelShader : Ptr
  gLightModelVertexShader : Ptr
  gLightModelPixelShader : Ptr

/-- The state-object globals declared in State.h and created by `CreateStates`. -/
structure States where
  gAnisotropic4xSampler : Ptr
  gNoBlendingState : Ptr
  gAdditiveBlendingState : Ptr
  gUseDepthBufferState : Ptr
  gDepthReadOnlyState : Ptr
  gCullBackState : Ptr
  gCullNoneState : Ptr

/-- The calls that leave `Scene.cpp`, with their arguments and, for creation calls, the
result they gave. -/
inductive Call (α : Type) where
  /-- The expression `new Mesh(file)`; `result` is `none` when the constructor threw. -/
  | NewMesh (file : String) (result : Option Ptr)
  | LoadShaders (ok : Bool)
  /-- The call `CreateConstantBuffer(size)`; a null `result` is failure. -/
  | CreateConstantBuffer (size : Nat) (result : Ptr)
  /-- The call `LoadTexture(file, &texture, &textureSRV)`; `result` holds both objects on success. -/
  | LoadTexture (file : String) (result : Option (Ptr × Ptr))
  | CreateTexture2D (desc : D3D11_TEXTURE2D_DESC) (hr : HRESULT) (result : Ptr)
  | CreateRenderTargetView (resource : Ptr) (hr : HRESULT) (result : Ptr)
  | CreateShaderResourceView (resource : Ptr) (hr : HRESULT) (result : Ptr)
  | CreateDepthStencilView (resource : Ptr) (hr : HRESULT) (result : Ptr)
  | CreateStates (ok : Bool)
  | NewModel (mesh : Ptr) (result : Ptr)
  | NewCamera (result : Ptr)
  | ReleaseStates
  | ReleaseShaders
  /-- The call `p->Release()` on a Direct3D interface pointer. -/
  | Release (p : Ptr)
  | DeleteCamera (p : Ptr)
  | DeleteModel (p : Ptr)
  | DeleteMesh (p : Ptr)
  | OMSetRenderTargets (renderTarget : Ptr) (depthStencil : Ptr)
  | ClearRenderTargetView (renderTarget : Ptr) (colour : ColourRGBA α)
  /-- The call `ClearDepthStencilView(view, D3D11_CLEAR_DEPTH, depth, 0)`. -/
  | ClearDepthStencilView (depthStencil : Ptr) (depth : α)
  | RSSetViewports (vp : D3D11_VIEWPORT α)
  /-- The call `UpdateConstantBuffer(buffer, gPerFrameConstants)`. -/
  | UpdateConstantBuffer (buffer : Ptr) (data : PerFrameConstants α)
  | VSSetConstantBuffers (slot : Nat) (buffer : Ptr)
  | PSSetConstantBuffers (slot : Nat) (buffer : Ptr)
  | VSSetShader (shader : Ptr)
  | PSSetShader (shader : Ptr)
  | OMSetBlendState (state : Ptr)
  | OMSetDepthStencilState (state : Ptr)
  | RSSetState (state : Ptr)
  | PSSetShaderResources (slot : Nat) (view : Ptr)
  | PSSetSamplers (slot : Nat) (sampler : Ptr)
  /-- The call `model->Render()`, with the per-model constants at the time of the call. -/
  | Render (model : Ptr) (mesh : Ptr) (constants : PerModelConstants α)
  | Present (syncInterval : Nat)
  /-- The call `SetWindowTextA` with the title built from the average frame time. -/
  | SetWindowTextA (avgFrameTime : α)

/-- The mesh globals of `Scene.cpp`. -/
structure Meshes where
  gTeapotMesh : Ptr
  gCubeMesh : Ptr
  gCrateMesh : Ptr
  gSphereMesh : Ptr
  gGroundMesh : Ptr
  gLightMesh : Ptr
  gPortalMesh : Ptr

/-- The model globals of `Scene.cpp`. -/
structure Models (α : Type) where
  gTeapot : Model α
  gCube : Model α
  gCrate : Model α
  gSphere : Model α
  gGround : Model α
  gLight1 : Model α
  gLight2 : Model α
  gPortal : Model α

/-- The light and colour globals of `Scene.cpp` ("Additional light information"). -/
structure Lights (α : Type) where
  gLight1Colour : CVector3 α
  gLight1Strength : α
  gLight2Colour : CVector3 α
  gLight2Strength : α
  gLight2MinStrength : α
  gLight2MaxStrength : α
  gLight2PulseSpeed : α
  textureShiftFactor : α
  gAmbientColour : CVector3 α
  gSpecularPower : α
  gBackgroundColor : ColourRGBA α

/-- The portal texture globals of `Scene.cpp`. -/
structure Portal where
  gPortalWidth : Int
  gPortalHeight : Int
  gPortalTexture : Ptr
  gPortalRenderTarget : Ptr
  gPortalTextureSRV : Ptr
  gPortalDepthStencil : Ptr
  gPortalDepthStencilView : Ptr

/-- The texture globals of `Scene.cpp`. -/
structure Textures where
  gTeapotDiffuseSpecularMap : Ptr
  gTeapotDiffuseSpecularMapSRV : Ptr
  gCubeStoneDiffuseSpecularMap : Ptr
  gCubeStoneDiffuseSpecularMapSRV : Ptr
  gCubeWoodDiffuseSpecularMap : Ptr
  gCubeWoodDiffuseSpecularMapSRV : Ptr
  gCrateDiffuseSpecularMap : Ptr
  gCrateDiffuseSpecularMapSRV : Ptr
  gSphereDiffuseSpecularMap : Ptr
  gSphereDiffuseSpecularMapSRV : Ptr
  gGroundDiffuseSpecularMap : Ptr
  gGroundDiffuseSpecularMapSRV : Ptr
  gLightDiffuseMap : Ptr
  gLightDiffuseMapSRV : Ptr

/-- The globals of src/Common.h that `Scene.cpp` uses and other files own. -/
structure Common where
  gViewportWidth : Int
  gViewportHeight : Int
  gBackBufferRenderTarget : Ptr
  gDepthStencil : Ptr
  gLastError : String

/-- The function-local statics of `UpdateScene`. -/
structure Statics (α : Type) where
  rotate : α
  fpsFrameTime : α
  effectTime : α
  frameCount : Int

/-- The globals of `Scene.cpp` grouped by the sections of the file, the globals of other
files it uses, the statics of `UpdateScene`, the allocation counter and the log of outgoing
calls. -/
structure State (α : Type) where
  meshes : Meshes
  models : Models α
  gCamera : Camera α
  gPortalCamera : Camera α
  lights : Lights α
  lockFPS : Bool
  portal : Portal
  gPerFrameConstants : PerFrameConstants α
  gPerFrameConstantBuffer : Ptr
  gPerModelConstants : PerModelConstants α
  gPerModelConstantBuffer : Ptr
  textures : Textures
  common : Common
  shaders : Shaders
  states : States
  statics : Statics α
  /-- The number of objects allocated so far; the next object gets address `nextPtr + 1`. -/
  nextPtr : Nat
  /-- The log of the calls made so far, oldest first. -/
  calls : List (Call α)

/-- Code of the repository and of the C library that `Scene.cpp` calls but that is not part
of the sources: the maths functions, and the matrix getters of `Camera` and `Model`. -/
structure Library (α : Type) where
  sin : α → α
  cos : α → α
  sinf : α → α
  pow : α → α → α
  ToRadians : α → α
  ViewMatrix : Camera α → CMatrix4x4 α
  ProjectionMatrix : Camera α → CMatrix4x4 α
  ViewProjectionMatrix : Camera α → CMatrix4x4 α
  WorldMatrix : Model α → CMatrix4x4 α

variable {α : Type}

/-- Append one outgoing call to the log. -/
def emit (c : Call α) (s : State α) : State α :=
  { s with calls := s.calls ++ [c] }

/-- Modelled from the spec: `Model::Render` (Model.cpp is not part of the sources).  After the
comment at its call in `RenderSceneFromCamera` it "sets world matrix, vertex and index buffer
and calls Draw on the GPU": it stores the model's world matrix in `gPerModelConstants` and
issues the draw, logged as one `Render` call carrying the constants. -/
def Model.Render (lib : Library α) (m : Model α) (s : State α) : State α :=
  have s := { s with gPerModelConstants.worldMatrix := lib.WorldMatrix m }
  emit (Call.Render m.ptr m.mesh s.gPerModelConstants) s

/-! ## Initialisation and release -/

/-- An exception thrown by a `Mesh` constructor: a `std::runtime_error` with its `what()`
text, or an exception of another type. -/
inductive Exception where
  | runtime_error (what : String)
  | other
  deriving DecidableEq, Repr

/-- What the calls made by `InitGeometry` answer.  These functions live in files that are not
part of the sources (Mesh.cpp, Shader.cpp, State.cpp, GraphicsHelpers.cpp) or in Direct3D, so
their answers are parameters. -/
structure Environment where
  /-- The expression `new Mesh(file)`: `none` when the mesh is constructed, else the exception thrown. -/
  NewMesh : String → Option Exception
  LoadShaders : Bool
  /-- The values `LoadShaders` leaves in the shader globals. -/
  loadedShaders : Shaders
  /-- The call `CreateConstantBuffer(size)`: whether a buffer (a non-null pointer) is returned. -/
  CreateConstantBuffer : Nat → Bool
  LoadTexture : String → Bool
  CreateTexture2D : D3D11_TEXTURE2D_DESC → HRESULT
  CreateRenderTargetView : HRESULT
  CreateShaderResourceView : HRESULT
  CreateDepthStencilView : HRESULT
  CreateStates : Bool
  /-- The values `CreateStates` leaves in the state-object globals. -/
  createdStates : States

/-- How a call of `InitGeometry` ends: it returns a `bool`, or an exception that is not a
`std::runtime_error` leaves it. -/
inductive Result where
  | returned (value : Bool)
  | threw
  deriving DecidableEq, Repr

/-- The value of `sizeof(PerFrameConstants)`: 73 floats of four bytes. -/
def sizeofPerFrameConstants : Nat := 292

/-- The value of `sizeof(PerModelConstants)`: 21 floats of four bytes. -/
def sizeofPerModelConstants : Nat := 84

/-- Modelled from the spec: the constructor of `Mesh` (Mesh.cpp is not part of the sources).
Whether it throws is the parameter `env.NewMesh`; a constructed mesh is a new object. -/
def NewMesh (env : Environment) (file : String) (s : State α) : Except Exception Ptr × State α :=
  match env.NewMesh file with
  | none =>
    let p := s.nextPtr + 1
    (.ok p, emit (Call.NewMesh file (some p)) { s with nextPtr := p })
  | some e => (.error e, emit (Call.NewMesh file none) s)

/-- The `try` block of `InitGeometry`: the seven meshes in order, up to the first exception. -/
def loadMeshes (env : Environment) (s : State α) : Option Exception × State α :=
  match NewMesh env "Teapot.x" s with
  | (.error e, s) => (some e, s)
  | (.ok p, s) =>
  have s := { s with meshes.gTeapotMesh := p }
  match NewMesh env "Cube.x" s with
  | (.error e, s) => (some e, s)
  | (.ok p, s) =>
  have s := { s with meshes.gCubeMesh := p }
  match NewMesh env "CargoContainer.x" s with
  | (.error e, s) => (some e, s)
  | (.ok p, s) =>
  have s := { s with meshes.gCrateMesh := p }
  match NewMesh env "Sphere.x" s with
  | (.error e, s) => (some e, s)
  | (.ok p, s) =>
  have s := { s with meshes.gSphereMesh := p }
  match NewMesh env "Hills.x" s with
  | (.error e, s) => (some e, s)
  | (.ok p, s) =>
  have s := { s with meshes.gGroundMesh := p }
  match NewMesh env "Light.x" s with
  | (.error e, s) => (some e, s)
  | (.ok p, s) =>
  have s := { s with meshes.gLightMesh := p }
  match NewMesh env "Portal.x" s with
  | (.error e, s) => (some e, s)
  | (.ok p, s) =>
  have s := { s with meshes.gPortalMesh := p }
  (none, s)

/-- Modelled from the spec: `LoadShaders` (Shader.cpp is not part of the sources).  Its answer
and the shader globals it leaves are parameters. -/
def LoadShaders (env : Environment) (s : State α) : Bool × State α :=
  (env.LoadShaders, emit (Call.LoadShaders env.LoadShaders) { s with shaders := env.loadedShaders })

/-- Modelled from the spec: `CreateConstantBuffer` (GraphicsHelpers.cpp is not part of the
sources): a new buffer, or `nullptr` when `env.CreateConstantBuffer size` is false. -/
def CreateConstantBuffer (env : Environment) (size : Nat) (s : State α) : Ptr × State α :=
  if env.CreateConstantBuffer size then
    let p := s.nextPtr + 1
    (p, emit (Call.CreateConstantBuffer size p) { s with nextPtr := p })
  else (0, emit (Call.CreateConstantBuffer size 0) s)

/-- Modelled from the spec: `LoadTexture(file, &texture, &textureSRV)` (GraphicsHelpers.cpp is
not part of the sources).  On success the two out-parameters receive a new resource and a new
view, stored by `store`; on failure they are left alone. -/
def LoadTexture (env : Environment) (file : String) (store : Ptr → Ptr → State α → State α)
    (s : State α) : Bool × State α :=
  if env.LoadTexture file then
    let texture := s.nextPtr + 1
    let textureSRV := s.nextPtr + 2
    (true, emit (Call.LoadTexture file (some (texture, textureSRV)))
      (store texture textureSRV { s with nextPtr := textureSRV }))
  else (false, emit (Call.LoadTexture file none) s)

/-- The negation `!f(...)` of a call with effects. -/
def notCall (f : State α → Bool × State α) (s : State α) : Bool × State α :=
  ((!(f s).1), (f s).2)

/-- The short-circuit `a || b` of two calls with effects: `b` runs only when `a` is false. -/
def orElse (a b : State α → Bool × State α) (s : State α) : Bool × State α :=
  if (a s).1 then (true, (a s).2) else b (a s).2

/-- The device call `CreateTexture2D(&desc, NULL, &out)`: on success the out-parameter
receives a new texture, stored by `store`; on failure it is left alone. -/
def CreateTexture2D (env : Environment) (desc : D3D11_TEXTURE2D_DESC)
    (store : Ptr → State α → State α) (s : State α) : HRESULT × State α :=
  let hr := env.CreateTexture2D desc
  if FAILED hr then (hr, emit (Call.CreateTexture2D desc hr 0) s)
  else
    let p := s.nextPtr + 1
    (hr, emit (Call.CreateTexture2D desc hr p) (store p { s with nextPtr := p }))

/-- The device call `CreateRenderTargetView(resource, NULL, &out)`. -/
def CreateRenderTargetView (env : Environment) (resource : Ptr)
    (store : Ptr → State α → State α) (s : State α) : HRESULT × State α :=
  let hr := env.CreateRenderTargetView
  if FAILED hr then (hr, emit (Call.CreateRenderTargetView resource hr 0) s)
  else
    let p := s.nextPtr + 1
    (hr, emit (Call.CreateRenderTargetView resource hr p) (store p { s with nextPtr := p }))

/-- The device call `CreateShaderResourceView(resource, &desc, &out)`. -/
def CreateShaderResourceView (env : Environment) (resource : Ptr)
    (store : Ptr → State α → State α) (s : State α) : HRESULT × State α :=
  let hr := env.CreateShaderResourceView
  if FAILED hr then (hr, emit (Call.CreateShaderResourceView resource hr 0) s)
  else
    let p := s.nextPtr + 1
    (hr, emit (Call.CreateShaderResourceView resource hr p) (store p { s with nextPtr := p }))

/-- The device call `CreateDepthStencilView(resource, &desc, &out)`. -/
def CreateDepthStencilView (env : Environment) (resource : Ptr)
    (store : Ptr → State α → State α) (s : State α) : HRESULT × State α :=
  let hr := env.CreateDepthStencilView
  if FAILED hr then (hr, emit (Call.CreateDepthStencilView resource hr 0) s)
  else
    let p := s.nextPtr + 1
    (hr, emit (Call.CreateDepthStencilView resource hr p) (store p { s with nextPtr := p }))

/-- Modelled from the spec: `CreateStates` (State.cpp is not part of the sources).  Its answer
and the state-object globals it leaves are parameters. -/
def CreateStates (env : Environment) (s : State α) : Bool × State α :=
  (env.CreateStates, emit (Call.CreateStates env.CreateStates) { s with states := env.createdStates })

/-- The description of the portal colour texture built by `InitGeometry`. -/
def portalTextureDesc (gPortalWidth gPortalHeight : Int) : D3D11_TEXTURE2D_DESC :=
  { Width := gPortalWidth, Height := gPortalHeight, MipLevels := 1,
    ArraySize := 1, Format := DXGI_FORMAT.R8G8B8A8_UNORM, SampleCount := 1, SampleQuality := 0,
    Usage := 0, BindFlags := D3D10_BIND_RENDER_TARGET ||| D3D10_BIND_SHADER_RESOURCE,
    CPUAccessFlags := 0, MiscFlags := 0 }

/-- The description of the portal depth texture built by `InitGeometry`. -/
def portalDepthDesc (gPortalWidth gPortalHeight : Int) : D3D11_TEXTURE2D_DESC :=
  { Width := gPortalWidth, Height := gPortalHeight, MipLevels := 1,
    ArraySize := 1, Format := DXGI_FORMAT.D32_FLOAT, SampleCount := 1, SampleQuality := 0,
    Usage := 0, BindFlags := D3D10_BIND_DEPTH_STENCIL, CPUAccessFlags := 0, MiscFlags := 0 }

/-- The texture chain of `InitGeometry`: seven negated `LoadTexture` calls joined by `||`. -/
def loadTextures (env : Environment) : State α → Bool × State α :=
  orElse (notCall (LoadTexture env "MetalDiffuseSpecular.dds" fun t v s =>
    { s with textures.gTeapotDiffuseSpecularMap := t, textures.gTeapotDiffuseSpecularMapSRV := v }))
  (orElse (notCall (LoadTexture env "StoneDiffuseSpecular.dds" fun t v s =>
    { s with textures.gCubeStoneDiffuseSpecularMap := t, textures.gCubeStoneDiffuseSpecularMapSRV := v }))
  (orElse (notCall (LoadTexture env "WoodDiffuseSpecular.dds" fun t v s =>
    { s with textures.gCubeWoodDiffuseSpecularMap := t, textures.gCubeWoodDiffuseSpecularMapSRV := v }))
  (orElse (notCall (LoadTexture env "CargoA.dds" fun t v s =>
    { s with textures.gCrateDiffuseSpecularMap := t, textures.gCrateDiffuseSpecularMapSRV := v }))
  (orElse (notCall (LoadTexture env "Brick1.jpg" fun t v s =>
    { s with textures.gSphereDiffuseSpecularMap := t, textures.gSphereDiffuseSpecularMapSRV := v }))
  (orElse (notCall (LoadTexture env "GrassDiffuseSpecular.dds" fun t v s =>
    { s with textures.gGroundDiffuseSpecularMap := t, textures.gGroundDiffuseSpecularMapSRV := v }))
  (notCall (LoadTexture env "Flare.jpg" fun t v s =>
    { s with textures.gLightDiffuseMap := t, textures.gLightDiffuseMapSRV := v })))))))

/-- Prepare the geometry required for the scene (`InitGeometry`). -/
def InitGeometry (env : Environment) (s : State α) : Result × State α :=
  -- Load mesh geometry data
  match loadMeshes env s with
  | (some Exception.other, s) => (Result.threw, s)
  | (some (Exception.runtime_error what), s) =>
    (Result.returned false, { s with common.gLastError := what })
  | (none, s) =>
  -- Load the shaders required for the geometry used
  match LoadShaders env s with
  | (false, s) => (Result.returned false, { s with common.gLastError := "Error loading shaders" })
  | (true, s) =>
  -- Create GPU-side constant buffers
  have r := CreateConstantBuffer env sizeofPerFrameConstants s
  have s := { r.2 with gPerFrameConstantBuffer := r.1 }
  have r := CreateConstantBuffer env sizeofPerModelConstants s
  have s := { r.2 with gPerModelConstantBuffer := r.1 }
  if s.gPerFrameConstantBuffer = 0 ∨ s.gPerModelConstantBuffer = 0 then
    (Result.returned false, { s with common.gLastError := "Error creating constant buffers" })
  else
  -- Load textures and create DirectX objects for them
  match loadTextures env s with
  | (true, s) => (Result.returned false, { s with common.gLastError := "Error loading textures" })
  | (false, s) =>
  -- Create Portal Texture
  let portalDesc := portalTextureDesc s.portal.gPortalWidth s.portal.gPortalHeight
  have r := CreateTexture2D env portalDesc (fun p s => { s with portal.gPortalTexture := p }) s
  if FAILED r.1 then
    (Result.returned false, { r.2 with common.gLastError := "Error creating portal texture" })
  else
  have s := r.2
  have r := CreateRenderTargetView env s.portal.gPortalTexture
    (fun p s => { s with portal.gPortalRenderTarget := p }) s
  if FAILED r.1 then
    (Result.returned false, { r.2 with common.gLastError := "Error creating portal render target view" })
  else
  have s := r.2
  have r := CreateShaderResourceView env s.portal.gPortalTexture
    (fun p s => { s with portal.gPortalTextureSRV := p }) s
  if FAILED r.1 then
    (Result.returned false, { r.2 with common.gLastError := "Error creating portal shader resource view" })
  else
  have s := r.2
  -- Create Portal Depth Buffer
  let portalDesc := portalDepthDesc s.portal.gPortalWidth s.portal.gPortalHeight
  have r := CreateTexture2D env portalDesc (fun p s => { s with portal.gPortalDepthStencil := p }) s
  if FAILED r.1 then
    (Result.returned false, { r.2 with common.gLastError := "Error creating portal depth stencil texture" })
  else
  have s := r.2
  have r := CreateDepthStencilView env s.portal.gPortalDepthStencil
    (fun p s => { s with portal.gPortalDepthStencilView := p }) s
  if FAILED r.1 then
    (Result.returned false, { r.2 with common.gLastError := "Error creating portal depth stencil view" })
  else
  have s := r.2
  -- Create all filtering modes, blending modes etc. used by the app
  match CreateStates env s with
  | (false, s) => (Result.returned false, { s with common.gLastError := "Error creating states" })
  | (true, s) => (Result.returned true, s)

/-- Modelled from the spec: the constructor `Model(mesh)` (Model.cpp is not part of the
sources): a new model of the given mesh at the origin, unrotated, with scale one. -/
def NewModel [Field α] (mesh : Ptr) (s : State α) : Model α × State α :=
  let p := s.nextPtr + 1
  ({ ptr := p, mesh := mesh, position := ⟨0, 0, 0⟩, rotation := ⟨0, 0, 0⟩, scale := 1 },
    emit (Call.NewModel mesh p) { s with nextPtr := p })

/-- Modelled from the spec: the constructor `Camera()` (Camera.cpp is not part of the sources):
a new camera, whose position, rotation and clip distances are the given defaults until set. -/
def NewCamera (defaults : Camera α) (s : State α) : Camera α × State α :=
  let p := s.nextPtr + 1
  ({ defaults with ptr := p }, emit (Call.NewCamera p) { s with nextPtr := p })

/-- Prepare the scene (`InitScene`).  `cameraDefaults` holds the members a `Camera` has after
its default constructor. -/
def InitScene [Field α] (lib : Library α) (cameraDefaults : Camera α) (s : State α) :
    Bool × State α :=
  -- Set up scene
  have r := NewModel s.meshes.gTeapotMesh s
  have s := { r.2 with models.gTeapot := r.1 }
  have r := NewModel s.meshes.gCubeMesh s
  have s := { r.2 with models.gCube := r.1 }
  have r := NewModel s.meshes.gCrateMesh s
  have s := { r.2 with models.gCrate := r.1 }
  have r := NewModel s.meshes.gSphereMesh s
  have s := { r.2 with models.gSphere := r.1 }
  have r := NewModel s.meshes.gGroundMesh s
  have s := { r.2 with models.gGround := r.1 }
  have r := NewModel s.meshes.gLightMesh s
  have s := { r.2 with models.gLight1 := r.1 }
  have r := NewModel s.meshes.gLightMesh s
  have s := { r.2 with models.gLight2 := r.1 }
  have r := NewModel s.meshes.gPortalMesh s
  have s := { r.2 with models.gPortal := r.1 }
  -- Initial positions
  have s := { s with models.gTeapot.position := ⟨10, 0, 40⟩ }
  have s := { s with models.gCube.position := ⟨0, 15, 0⟩ }
  have s := { s with models.gSphere.position := ⟨30, 10, 0⟩ }
  have s := { s with models.gCrate.position := ⟨-10, 0, 90⟩ }
  have s := { s with models.gCrate.scale := 6.0 }
  have s := { s with models.gCrate.rotation := ⟨0.0, lib.ToRadians 40.0, 0.0⟩ }
  have s := { s with models.gPortal.position := ⟨40, 20, 40⟩ }
  have s := { s with models.gPortal.rotation := ⟨0.0, lib.ToRadians (-130.0), 0.0⟩ }
  have s := { s with models.gLight1.position := ⟨30, 10, 0⟩ }
  have s := { s with models.gLight1.scale := lib.pow s.lights.gLight1Strength 0.7 }
  have s := { s with models.gLight2.position := ⟨-20, 30, 40⟩ }
  have s := { s with models.gLight2.scale := lib.pow s.lights.gLight2MaxStrength 0.7 }
  -- Set up cameras
  have r := NewCamera cameraDefaults s
  have s := { r.2 with gCamera := r.1 }
  have s := { s with gCamera.position := ⟨40, 30, -90⟩ }
  have s := { s with gCamera.rotation := ⟨lib.ToRadians 8.0, lib.ToRadians (-18.0), 0.0⟩ }
  have s := { s with gCamera.nearClip := 1.0 }
  have s := { s with gCamera.farClip := 1000.0 }
  -- Set up portal
  have r := NewCamera cameraDefaults s
  have s := { r.2 with gPortalCamera := r.1 }
  have s := { s with gPortalCamera.position := ⟨45, 45, 85⟩ }
  have s := { s with gPortalCamera.rotation := ⟨lib.ToRadians 20.0, lib.ToRadians 215.0, 0⟩ }
  (true, s)

/-- The statement `if (p) p->Release();`. -/
def Release (p : Ptr) (s : State α) : State α :=
  if p ≠ 0 then emit (Call.Release p) s else s

/-- The statement `delete camera;` (deleting `nullptr` does nothing). -/
def deleteCamera (p : Ptr) (s : State α) : State α :=
  if p ≠ 0 then emit (Call.DeleteCamera p) s else s

/-- The statement `delete model;`. -/
def deleteModel (p : Ptr) (s : State α) : State α :=
  if p ≠ 0 then emit (Call.DeleteModel p) s else s

/-- The statement `delete mesh;`. -/
def deleteMesh (p : Ptr) (s : State α) : State α :=
  if p ≠ 0 then emit (Call.DeleteMesh p) s else s

/-- Release the geometry and scene resources created above (`ReleaseResources`). -/
def ReleaseResources (s : State α) : State α :=
  have s := emit Call.ReleaseStates s
  have s := Release s.portal.gPortalDepthStencilView s
  have s := Release s.portal.gPortalDepthStencil s
  have s := Release s.portal.gPortalTextureSRV s
  have s := Release s.portal.gPortalRenderTarget s
  have s := Release s.portal.gPortalTexture s
  have s := Release s.textures.gLightDiffuseMapSRV s
  have s := Release s.textures.gLightDiffuseMap s
  have s := Release s.textures.gGroundDiffuseSpecularMapSRV s
  have s := Release s.textures.gGroundDiffuseSpecularMap s
  have s := Release s.textures.gSphereDiffuseSpecularMapSRV s
  have s := Release s.textures.gSphereDiffuseSpecularMap s
  have s := Release s.textures.gCrateDiffuseSpecularMapSRV s
  have s := Release s.textures.gCrateDiffuseSpecularMap s
  have s := Release s.textures.gTeapotDiffuseSpecularMapSRV s
  have s := Release s.textures.gTeapotDiffuseSpecularMap s
  have s := Release s.textures.gCubeStoneDiffuseSpecularMapSRV s
  have s := Release s.textures.gCubeStoneDiffuseSpecularMap s
  have s := Release s.textures.gCubeWoodDiffuseSpecularMapSRV s
  have s := Release s.textures.gCubeWoodDiffuseSpecularMap s
  have s := Release s.gPerModelConstantBuffer s
  have s := Release s.gPerFrameConstantBuffer s
  have s := emit Call.ReleaseShaders s
  -- Delete dynamically allocated objects not using unique_ptr
  have s := deleteCamera s.gCamera.ptr s
  have s := { s with gCamera.ptr := 0 }
  have s := deleteCamera s.gPortalCamera.ptr s
  have s := { s with gPortalCamera.ptr := 0 }
  have s := deleteModel s.models.gPortal.ptr s
  have s := { s with models.gPortal.ptr := 0 }
  have s := deleteModel s.models.gLight1.ptr s
  have s := { s with models.gLight1.ptr := 0 }
  have s := deleteModel s.models.gLight2.ptr s
  have s := { s with models.gLight2.ptr := 0 }
  have s := deleteModel s.models.gGround.ptr s
  have s := { s with models.gGround.ptr := 0 }
  have s := deleteModel s.models.gSphere.ptr s
  have s := { s with models.gSphere.ptr := 0 }
  have s := deleteModel s.models.gCrate.ptr s
  have s := { s with models.gCrate.ptr := 0 }
  have s := deleteModel s.models.gCube.ptr s
  have s := { s with models.gCube.ptr := 0 }
  have s := deleteModel s.models.gTeapot.ptr s
  have s := { s with models.gTeapot.ptr := 0 }
  have s := deleteMesh s.meshes.gPortalMesh s
  have s := { s with meshes.gPortalMesh := 0 }
  have s := deleteMesh s.meshes.gLightMesh s
  have s := { s with meshes.gLightMesh := 0 }
  have s := deleteMesh s.meshes.gGroundMesh s
  have s := { s with meshes.gGroundMesh := 0 }
  have s := deleteMesh s.meshes.gSphereMesh s
  have s := { s with meshes.gSphereMesh := 0 }
  have s := deleteMesh s.meshes.gCrateMesh s
  have s := { s with meshes.gCrateMesh := 0 }
  have s := deleteMesh s.meshes.gCubeMesh s
  have s := { s with meshes.gCubeMesh := 0 }
  have s := deleteMesh s.meshes.gTeapotMesh s
  { s with meshes.gTeapotMesh := 0 }

/-! ## Scene rendering -/

/-- Render everything in the scene from the given camera (`RenderSceneFromCamera`). -/
def RenderSceneFromCamera (lib : Library α) (camera : Camera α) (s : State α) : State α :=
  -- Set camera matrices in the constant buffer and send over to GPU
  have s := { s with gPerFrameConstants.viewMatrix := lib.ViewMatrix camera }
  have s := { s with gPerFrameConstants.projectionMatrix := lib.ProjectionMatrix camera }
  have s := { s with gPerFrameConstants.viewProjectionMatrix := lib.ViewProjectionMatrix camera }
  have s := emit (Call.UpdateConstantBuffer s.gPerFrameConstantBuffer s.gPerFrameConstants) s
  have s := emit (Call.VSSetConstantBuffers 0 s.gPerFrameConstantBuffer) s
  have s := emit (Call.PSSetConstantBuffers 0 s.gPerFrameConstantBuffer) s
  -- Render lit models
  have s := emit (Call.VSSetShader s.shaders.gPixelLightingVertexShader) s
  have s := emit (Call.PSSetShader s.shaders.gPixelLightingPixelShader) s
  have s := emit (Call.OMSetBlendState s.states.gNoBlendingState) s
  have s := emit (Call.OMSetDepthStencilState s.states.gUseDepthBufferState) s
  have s := emit (Call.RSSetState s.states.gCullBackState) s
  have s := emit (Call.PSSetShaderResources 0 s.textures.gGroundDiffuseSpecularMapSRV) s
  have s := emit (Call.PSSetSamplers 0 s.states.gAnisotropic4xSampler) s
  have s := s.models.gGround.Render lib s
  -- Container render
  have s := emit (Call.PSSetShaderResources 0 s.textures.gCrateDiffuseSpecularMapSRV) s
  have s := s.models.gCrate.Render lib s
  -- Teapot render
  have s := emit (Call.PSSetShaderResources 0 s.textures.gTeapotDiffuseSpecularMapSRV) s
  have s := s.models.gTeapot.Render lib s
  -- Portal render
  have s := emit (Call.PSSetShaderResources 0 s.portal.gPortalTextureSRV) s
  have s := s.models.gPortal.Render lib s
  -- Sphere render
  have s := emit (Call.VSSetShader s.shaders.gSphereModelVertexShader) s
  have s := emit (Call.PSSetShader s.shaders.gSphereModelPixelShader) s
  have s := emit (Call.PSSetShaderResources 0 s.textures.gSphereDiffuseSpecularMapSRV) s
  have s := s.models.gSphere.Render lib s
  -- Cube render
  have s := emit (Call.VSSetShader s.shaders.gCubeModelVertexShader) s
  have s := emit (Call.PSSetShader s.shaders.gCubeModelPixelShader) s
  have s := emit (Call.PSSetShaderResources 0 s.textures.gCubeStoneDiffuseSpecularMapSRV) s
  have s := emit (Call.PSSetShaderResources 1 s.textures.gCubeWoodDiffuseSpecularMapSRV) s
  have s := s.models.gCube.Render lib s
  -- Render lights
  have s := emit (Call.VSSetShader s.shaders.gLightModelVertexShader) s
  have s := emit (Call.PSSetShader s.shaders.gLightModelPixelShader) s
  have s := emit (Call.PSSetShaderResources 0 s.textures.gLightDiffuseMapSRV) s
  have s := emit (Call.PSSetSamplers 0 s.states.gAnisotropic4xSampler) s
  have s := emit (Call.OMSetBlendState s.states.gAdditiveBlendingState) s
  have s := emit (Call.OMSetDepthStencilState s.states.gDepthReadOnlyState) s
  have s := emit (Call.RSSetState s.states.gCullNoneState) s
  have s := { s with gPerModelConstants.objectColour := s.lights.gLight1Colour }
  have s := s.models.gLight1.Render lib s
  have s := { s with gPerModelConstants.objectColour := s.lights.gLight2Colour }
  s.models.gLight2.Render lib s

/-- Main render function (`RenderScene`). -/
def RenderScene [Field α] (lib : Library α) (s : State α) : State α :=
  -- Set up the light information in the constant buffer
  have s := { s with gPerFrameConstants.light1Colour := s.lights.gLight1Colour.mul s.lights.gLight1Strength }
  have s := { s with gPerFrameConstants.light1Position := s.models.gLight1.position }
  have s := { s with gPerFrameConstants.light2Colour := s.lights.gLight2Colour.mul s.lights.gLight2Strength }
  have s := { s with gPerFrameConstants.light2Strength := s.lights.gLight2Strength }
  have s := { s with gPerFrameConstants.light2Position := s.models.gLight2.position }
  have s := { s with gPerFrameConstants.ambientColour := s.lights.gAmbientColour }
  have s := { s with gPerFrameConstants.specularPower := s.lights.gSpecularPower }
  have s := { s with gPerFrameConstants.cameraPosition := s.gCamera.position }
  -- Send time-based variable to constant buffer for use in pixel shader
  have s := { s with gPerModelConstants.textureShiftFactor := s.lights.textureShiftFactor }
  -- Portal scene rendering
  have s := emit (Call.OMSetRenderTargets s.portal.gPortalRenderTarget s.portal.gPortalDepthStencilView) s
  have s := emit (Call.ClearRenderTargetView s.portal.gPortalRenderTarget s.lights.gBackgroundColor) s
  have s := emit (Call.ClearDepthStencilView s.portal.gPortalDepthStencilView 1.0) s
  let vp : D3D11_VIEWPORT α :=
    { Width := (s.portal.gPortalWidth : α), Height := (s.portal.gPortalHeight : α),
      MinDepth := 0.0, MaxDepth := 1.0, TopLeftX := 0, TopLeftY := 0 }
  have s := emit (Call.RSSetViewports vp) s
  have s := RenderSceneFromCamera lib s.gPortalCamera s
  -- Main scene rendering
  have s := emit (Call.OMSetRenderTargets s.common.gBackBufferRenderTarget s.common.gDepthStencil) s
  have s := emit (Call.ClearRenderTargetView s.common.gBackBufferRenderTarget s.lights.gBackgroundColor) s
  have s := emit (Call.ClearDepthStencilView s.common.gDepthStencil 1.0) s
  let vp : D3D11_VIEWPORT α :=
    { vp with Width := (s.common.gViewportWidth : α), Height := (s.common.gViewportHeight : α),
              MinDepth := 0.0, MaxDepth := 1.0, TopLeftX := 0, TopLeftY := 0 }
  have s := emit (Call.RSSetViewports vp) s
  have s := RenderSceneFromCamera lib s.gCamera s
  -- Scene completion
  emit (Call.Present (if s.lockFPS then 1 else 0)) s

/-! ## Scene update -/

/-- The constant `ROTATION_SPEED`. -/
def ROTATION_SPEED [Field α] : α := 2.0

/-- The constant `MOVEMENT_SPEED`. -/
def MOVEMENT_SPEED [Field α] : α := 50.0

/-- The constant `gLightOrbit`. -/
def gLightOrbit [Field α] : α := 20.0

/-- The constant `gLightOrbitSpeed`. -/
def gLightOrbitSpeed [Field α] : α := 0.7

/-- What the keyboard does during one call of `UpdateScene`.  `Model::Control`,
`Camera::Control` and `KeyHit` live in files that are not part of the sources, so their
effect on the object they are called on, for a given frame time, is a parameter. -/
structure Keys (α : Type) where
  modelControl : α → Model α → Model α
  cameraControl : α → Camera α → Camera α
  keyHitP : Bool

/-- Update models and camera (`UpdateScene`); `frameTime` is the time passed since the last
frame.  The window title is logged with the average frame time it is built from. -/
def UpdateScene [LinearOrderedField α] (lib : Library α) (keys : Keys α) (frameTime : α)
    (s : State α) : State α :=
  -- Control sphere
  have s := { s with models.gSphere := keys.modelControl frameTime s.models.gSphere }
  -- Orbit the light
  have offset : CVector3 α :=
    ⟨lib.cos s.statics.rotate * gLightOrbit, 0.0, lib.sin s.statics.rotate * gLightOrbit⟩
  have s := { s with models.gLight1.position := s.models.gCube.position.add offset }
  have s := { s with statics.rotate := s.statics.rotate - gLightOrbitSpeed * frameTime }
  -- Control camera
  have s := { s with gCamera := keys.cameraControl frameTime s.gCamera }
  -- Toggle FPS limiting
  have s := if keys.keyHitP then { s with lockFPS := !s.lockFPS } else s
  -- Show frame time / FPS in the window title
  let fpsUpdateTime : α := 0.5
  have s := { s with statics.fpsFrameTime := s.statics.fpsFrameTime + frameTime }
  have s := { s with statics.frameCount := s.statics.frameCount + 1 }
  have s := { s with statics.effectTime := s.statics.effectTime + frameTime }
  have s := { s with lights.textureShiftFactor := 2 * s.statics.effectTime }
  -- Rotating light color values
  have r := 0.5 + 0.5 * lib.sinf (s.statics.effectTime * 0.8)
  let g := 0.5 + 0.5 * lib.sinf (s.statics.effectTime * 0.8)
  let b := 0.5 + 0.5 * lib.sinf (s.statics.effectTime * 0.8)
  have s := { s with lights.gLight1Colour := ⟨r, g, b⟩ }
  -- Static light pulsate on/off
  let gLight2PulseFactor := 0.5 + 0.5 * lib.sinf (s.statics.effectTime * s.lights.gLight2PulseSpeed)
  have s := { s with lights.gLight2Strength := s.lights.gLight2MinStrength +
    (s.lights.gLight2MaxStrength - s.lights.gLight2MinStrength) * gLight2PulseFactor }
  if s.statics.fpsFrameTime > fpsUpdateTime then
    let avgFrameTime := s.statics.fpsFrameTime / (s.statics.frameCount : α)
    have s := emit (Call.SetWindowTextA avgFrameTime) s
    have s := { s with statics.fpsFrameTime := 0 }
    { s with statics.frameCount := 0 }
  else s

/-! ## Observing the log -/

/-- The calls a state transformer adds to an empty log. -/
def callsOf (f : State α → State α) (s : State α) : List (Call α) :=
  (f { s with calls := [] }).calls

/-- What the device context holds: the bindings in force, the contents last uploaded to each
constant buffer, and, for the bound targets, what they were cleared to and how many draws
went into them since they were bound.  `resourceOf` is the resource behind each view the log
has shown being created; `psRequested` is the view last passed to `PSSetShaderResources` for
each slot, which differs from the view the slot holds (`psShaderResources`) when Direct3D
refuses the binding. -/
structure Pipeline (α : Type) where
  renderTarget : Ptr
  depthStencil : Ptr
  colourCleared : Option (ColourRGBA α)
  depthCleared : Option α
  drawsSinceBind : Nat
  viewport : D3D11_VIEWPORT α
  vertexShader : Ptr
  pixelShader : Ptr
  blendState : Ptr
  depthStencilState : Ptr
  rasterizerState : Ptr
  psShaderResources : Nat → Ptr
  psRequested : Nat → Ptr
  psSamplers : Nat → Ptr
  vsConstantBuffers : Nat → Ptr
  psConstantBuffers : Nat → Ptr
  bufferData : Ptr → Option (PerFrameConstants α)
  resourceOf : Ptr → Option Ptr

/-- Bind `v` at slot (or address) `i`, leaving the other slots alone. -/
def bind {β : Type} (f : Nat → β) (i : Nat) (v : β) : Nat → β :=
  fun j => if j = i then v else f j

/-- Whether `v` is a view of the resource behind one of the output views `rt` and `ds`, by
the table `resourceOf` of the views created so far. -/
def viewsOutput (resourceOf : Ptr → Option Ptr) (rt ds v : Ptr) : Bool :=
  match resourceOf v with
  | none => false
  | some r => resourceOf rt == some r || resourceOf ds == some r

/-- The view an input slot holds when the view `v` is bound to it, or stays in it, while
`rt` and `ds` are bound for output: NULL when `v` is a view of their resources. -/
def inputView (resourceOf : Ptr → Option Ptr) (rt ds v : Ptr) : Ptr :=
  if viewsOutput resourceOf rt ds v then 0 else v

/-- The table of views after the creation of `view` on `resource`; a null `view`, left by a
failed creation, changes nothing. -/
def learnView (resourceOf : Ptr → Option Ptr) (view resource : Ptr) : Ptr → Option Ptr :=
  if view = 0 then resourceOf else bind resourceOf view (some resource)

/-- The table of views after `LoadTexture`, which on success gives a texture and a view of it. -/
def learnLoaded (resourceOf : Ptr → Option Ptr) : Option (Ptr × Ptr) → Ptr → Option Ptr
  | some (texture, view) => learnView resourceOf view texture
  | none => resourceOf

/-- The effect of one call on the device context; calls that bind nothing leave it alone.
Direct3D 11 keeps a resource from being read and written in one draw (documented at
`OMSetRenderTargets` and at `PSSetShaderResources`): binding a view for input whose resource is
bound for output fills the slot with NULL, and binding output views sets to NULL the input
slots that hold views of their resources. -/
def Pipeline.step (p : Pipeline α) : Call α → Pipeline α
  | .LoadTexture _ result => { p with resourceOf := learnLoaded p.resourceOf result }
  | .CreateRenderTargetView resource _ view =>
      { p with resourceOf := learnView p.resourceOf view resource }
  | .CreateShaderResourceView resource _ view =>
      { p with resourceOf := learnView p.resourceOf view resource }
  | .CreateDepthStencilView resource _ view =>
      { p with resourceOf := learnView p.resourceOf view resource }
  | .OMSetRenderTargets rt ds =>
      { p with renderTarget := rt, depthStencil := ds, colourCleared := none,
               depthCleared := none, drawsSinceBind := 0,
               psShaderResources := fun j => inputView p.resourceOf rt ds (p.psShaderResources j) }
  | .ClearRenderTargetView rt c =>
      if rt = p.renderTarget then { p with colourCleared := some c } else p
  | .ClearDepthStencilView ds d =>
      if ds = p.depthStencil then { p with depthCleared := some d } else p
  | .RSSetViewports vp => { p with viewport := vp }
  | .UpdateConstantBuffer b data => { p with bufferData := bind p.bufferData b (some data) }
  | .VSSetConstantBuffers i b => { p with vsConstantBuffers := bind p.vsConstantBuffers i b }
  | .PSSetConstantBuffers i b => { p with psConstantBuffers := bind p.psConstantBuffers i b }
  | .VSSetShader x => { p with vertexShader := x }
  | .PSSetShader x => { p with pixelShader := x }
  | .OMSetBlendState x => { p with blendState := x }
  | .OMSetDepthStencilState x => { p with depthStencilState := x }
  | .RSSetState x => { p with rasterizerState := x }
  | .PSSetShaderResources i v =>
      { p with
        psRequested := bind p.psRequested i v
        psShaderResources := bind p.psShaderResources i
          (inputView p.resourceOf p.renderTarget p.depthStencil v) }
  | .PSSetSamplers i x => { p with psSamplers := bind p.psSamplers i x }
  | .Render _ _ _ => { p with drawsSinceBind := p.drawsSinceBind + 1 }
  | _ => p

/-- The device context after the calls of a log, starting from the device context `p`. -/
def Pipeline.run (p : Pipeline α) : List (Call α) → Pipeline α
  | [] => p
  | c :: cs => (p.step c).run cs

/-- Whether a call creates a view, so that the device learns the resource behind it. -/
def Call.createsView : Call α → Bool
  | .LoadTexture _ _ => true
  | .CreateRenderTargetView _ _ _ => true
  | .CreateShaderResourceView _ _ _ => true
  | .CreateDepthStencilView _ _ _ => true
  | _ => false

/-- One draw: the model rendered, its per-model constants, and the device context at the
moment of the call. -/
structure Draw (α : Type) where
  model : Ptr
  mesh : Ptr
  constants : PerModelConstants α
  pipeline : Pipeline α

/-- The draws of a log, in order, each with the device context it was issued in, starting
from the device context `p`. -/
def draws (p : Pipeline α) : List (Call α) → List (Draw α)
  | [] => []
  | c :: cs =>
    (match c with
      | .Render m mesh k => [⟨m, mesh, k, p⟩]
      | _ => []) ++ draws (p.step c) cs

/-- The per-frame constants uploaded by a log, in order. -/
def perFrameUploads : List (Call α) → List (PerFrameConstants α)
  | [] => []
  | c :: cs =>
    (match c with
      | .UpdateConstantBuffer _ data => [data]
      | _ => []) ++ perFrameUploads cs

/-- Whether a call is `Present`. -/
def Call.isPresent : Call α → Bool
  | .Present _ => true
  | _ => false

/-- The per-frame constants that the vertex shader reads at a draw: the contents of the
buffer bound to its slot 0. -/
def Draw.perFrame (d : Draw α) : Option (PerFrameConstants α) :=
  d.pipeline.bufferData (d.pipeline.vsConstantBuffers 0)

/-! ## Observing initialisation and release -/

/-- The calls appended to the log between two states. -/
def newCalls (before after : State α) : List (Call α) :=
  after.calls.drop before.calls.length

/-- The mesh files of `InitGeometry`, in the order of the source. -/
def meshFiles : List String :=
  ["Teapot.x", "Cube.x", "CargoContainer.x", "Sphere.x", "Hills.x", "Light.x", "Portal.x"]

/-- The texture files of `InitGeometry`, in the order of the source. -/
def textureFiles : List String :=
  ["MetalDiffuseSpecular.dds", "StoneDiffuseSpecular.dds", "WoodDiffuseSpecular.dds",
   "CargoA.dds", "Brick1.jpg", "GrassDiffuseSpecular.dds", "Flare.jpg"]

/-- The steps of `InitGeometry`, one for each error message. -/
inductive Step where
  | meshes
  | shaders
  | constantBuffers
  | textures
  | portalTexture
  | portalRenderTarget
  | portalShaderResource
  | portalDepthTexture
  | portalDepthView
  | states
  deriving DecidableEq, Repr

/-- The position of a step in the order of the source. -/
def Step.index : Step → Nat
  | .meshes => 0
  | .shaders => 1
  | .constantBuffers => 2
  | .textures => 3
  | .portalTexture => 4
  | .portalRenderTarget => 5
  | .portalShaderResource => 6
  | .portalDepthTexture => 7
  | .portalDepthView => 8
  | .states => 9

/-- The steps in the order of the source. -/
def stepOrder : List Step :=
  [.meshes, .shaders, .constantBuffers, .textures, .portalTexture, .portalRenderTarget,
   .portalShaderResource, .portalDepthTexture, .portalDepthView, .states]

/-- Whether a step fails in the environment, for a portal texture of the given size. -/
def Step.fails (env : Environment) (width height : Int) : Step → Bool
  | .meshes => meshFiles.any fun f => (env.NewMesh f).isSome
  | .shaders => !env.LoadShaders
  | .constantBuffers =>
      !env.CreateConstantBuffer sizeofPerFrameConstants ||
      !env.CreateConstantBuffer sizeofPerModelConstants
  | .textures => textureFiles.any fun f => !env.LoadTexture f
  | .portalTexture => FAILED (env.CreateTexture2D (portalTextureDesc width height))
  | .portalRenderTarget => FAILED env.CreateRenderTargetView
  | .portalShaderResource => FAILED env.CreateShaderResourceView
  | .portalDepthTexture => FAILED (env.CreateTexture2D (portalDepthDesc width height))
  | .portalDepthView => FAILED env.CreateDepthStencilView
  | .states => !env.CreateStates

/-- The `what()` text of a `std::runtime_error`. -/
def Exception.what : Exception → String
  | .runtime_error what => what
  | .other => ""

/-- The message a failing step leaves in `gLastError`; for the meshes it is the `what()` text
of the first exception. -/
def Step.message (env : Environment) : Step → String
  | .meshes => ((meshFiles.findSome? env.NewMesh).map Exception.what).getD ""
  | .shaders => "Error loading shaders"
  | .constantBuffers => "Error creating constant buffers"
  | .textures => "Error loading textures"
  | .portalTexture => "Error creating portal texture"
  | .portalRenderTarget => "Error creating portal render target view"
  | .portalShaderResource => "Error creating portal shader resource view"
  | .portalDepthTexture => "Error creating portal depth stencil texture"
  | .portalDepthView => "Error creating portal depth stencil view"
  | .states => "Error creating states"

/-- The first step, in the order of the source, that fails. -/
def firstFailure (env : Environment) (width height : Int) : Option Step :=
  stepOrder.find? (Step.fails env width height)

/-- The step of `InitGeometry` a logged call belongs to. -/
def Call.step : Call α → Option Step
  | .NewMesh _ _ => some .meshes
  | .LoadShaders _ => some .shaders
  | .CreateConstantBuffer _ _ => some .constantBuffers
  | .LoadTexture _ _ => some .textures
  | .CreateTexture2D desc _ _ =>
      if desc.Format = DXGI_FORMAT.R8G8B8A8_UNORM then some .portalTexture
      else some .portalDepthTexture
  | .CreateRenderTargetView _ _ _ => some .portalRenderTarget
  | .CreateShaderResourceView _ _ _ => some .portalShaderResource
  | .CreateDepthStencilView _ _ _ => some .portalDepthView
  | .CreateStates _ => some .states
  | _ => none

/-- The file of a logged `new Mesh` call. -/
def Call.meshFile : Call α → Option String
  | .NewMesh file _ => some file
  | _ => none

/-- The file of a logged `LoadTexture` call. -/
def Call.textureFile : Call α → Option String
  | .LoadTexture file _ => some file
  | _ => none

/-- The steps that have a call in the log, in the order of the source. -/
def attemptedSteps (log : List (Call α)) : List Step :=
  stepOrder.filter fun st => log.any fun c => c.step == some st

/-- The items of a list up to and including the first bad one. -/
def throughFirst (bad : String → Bool) : List String → List String
  | [] => []
  | f :: fs => if bad f then [f] else f :: throughFirst bad fs

/-- The objects the program creates and releases. -/
inductive Obj where
  | mesh (p : Ptr)
  | model (p : Ptr)
  | camera (p : Ptr)
  /-- A Direct3D object behind an interface pointer. -/
  | com (p : Ptr)
  /-- The shaders owned by Shader.cpp. -/
  | shaders
  /-- The state objects owned by State.cpp. -/
  | states
  deriving DecidableEq, Repr

/-- The objects a logged call created. -/
def Call.created : Call α → List Obj
  | .NewMesh _ (some p) => [.mesh p]
  | .LoadShaders true => [.shaders]
  | .CreateConstantBuffer _ p => if p = 0 then [] else [.com p]
  | .LoadTexture _ (some (t, v)) => [.com t, .com v]
  | .CreateTexture2D _ hr p => if FAILED hr then [] else [.com p]
  | .CreateRenderTargetView _ hr p => if FAILED hr then [] else [.com p]
  | .CreateShaderResourceView _ hr p => if FAILED hr then [] else [.com p]
  | .CreateDepthStencilView _ hr p => if FAILED hr then [] else [.com p]
  | .CreateStates true => [.states]
  | .NewModel _ p => [.model p]
  | .NewCamera p => [.camera p]
  | _ => []

/-- The objects a logged call released. -/
def Call.released : Call α → List Obj
  | .ReleaseStates => [.states]
  | .ReleaseShaders => [.shaders]
  | .Release p => [.com p]
  | .DeleteCamera p => [.camera p]
  | .DeleteModel p => [.model p]
  | .DeleteMesh p => [.mesh p]
  | _ => []

/-- The objects created by a log, in order. -/
def createdBy (log : List (Call α)) : List Obj :=
  log.flatMap Call.created

/-- The objects released by a log, in order. -/
def releasedBy (log : List (Call α)) : List Obj :=
  log.flatMap Call.released

/-- The objects behind the globals that `InitGeometry` assigns, in the order it creates them;
the shader and state sets stand for the globals of Shader.cpp and State.cpp. -/
def State.geometry (s : State α) : List Obj :=
  [.mesh s.meshes.gTeapotMesh, .mesh s.meshes.gCubeMesh, .mesh s.meshes.gCrateMesh,
   .mesh s.meshes.gSphereMesh, .mesh s.meshes.gGroundMesh, .mesh s.meshes.gLightMesh,
   .mesh s.meshes.gPortalMesh,
   .shaders,
   .com s.gPerFrameConstantBuffer, .com s.gPerModelConstantBuffer,
   .com s.textures.gTeapotDiffuseSpecularMap, .com s.textures.gTeapotDiffuseSpecularMapSRV,
   .com s.textures.gCubeStoneDiffuseSpecularMap, .com s.textures.gCubeStoneDiffuseSpecularMapSRV,
   .com s.textures.gCubeWoodDiffuseSpecularMap, .com s.textures.gCubeWoodDiffuseSpecularMapSRV,
   .com s.textures.gCrateDiffuseSpecularMap, .com s.textures.gCrateDiffuseSpecularMapSRV,
   .com s.textures.gSphereDiffuseSpecularMap, .com s.textures.gSphereDiffuseSpecularMapSRV,
   .com s.textures.gGroundDiffuseSpecularMap, .com s.textures.gGroundDiffuseSpecularMapSRV,
   .com s.textures.gLightDiffuseMap, .com s.textures.gLightDiffuseMapSRV,
   .com s.portal.gPortalTexture, .com s.portal.gPortalRenderTarget,
   .com s.portal.gPortalTextureSRV, .com s.portal.gPortalDepthStencil,
   .com s.portal.gPortalDepthStencilView,
   .states]

/-- The objects behind the globals that `InitScene` assigns, in the order it creates them. -/
def State.scene (s : State α) : List Obj :=
  [.model s.models.gTeapot.ptr, .model s.models.gCube.ptr, .model s.models.gCrate.ptr,
   .model s.models.gSphere.ptr, .model s.models.gGround.ptr, .model s.models.gLight1.ptr,
   .model s.models.gLight2.ptr, .model s.models.gPortal.ptr,
   .camera s.gCamera.ptr, .camera s.gPortalCamera.ptr]

/-- The objects the globals hold. -/
def State.held (s : State α) : List Obj :=
  s.geometry ++ s.scene

/-- What a failed `InitGeometry` leaves behind when `st` is the failing step and the first
`k` globals of `State.geometry` have been assigned. -/
def FailureRecord (env : Environment) (s : State α) (st : Step) (k : Nat) : Prop :=
  firstFailure env s.portal.gPortalWidth s.portal.gPortalHeight = some st ∧
  (InitGeometry env s).2.common.gLastError = st.message env ∧
  attemptedSteps (newCalls s (InitGeometry env s).2) = stepOrder.take (st.index + 1) ∧
  (newCalls s (InitGeometry env s).2).all (fun c => c.step.isSome) = true ∧
  (newCalls s (InitGeometry env s).2).filterMap Call.meshFile =
    throughFirst (fun f => (env.NewMesh f).isSome) meshFiles ∧
  (newCalls s (InitGeometry env s).2).filterMap Call.textureFile =
    (if st.index < Step.textures.index then []
     else throughFirst (fun f => !env.LoadTexture f) textureFiles) ∧
  releasedBy (newCalls s (InitGeometry env s).2) = [] ∧
  createdBy (newCalls s (InitGeometry env s).2) =
    (((InitGeometry env s).2.geometry.take k).filter fun o => o ≠ Obj.com 0)

/-! ## Observing the frame -/

/-- The eight models in the order `RenderSceneFromCamera` draws them. -/
def sceneModels (s : State α) : List (Model α) :=
  [s.models.gGround, s.models.gCrate, s.models.gTeapot, s.models.gPortal, s.models.gSphere,
   s.models.gCube, s.models.gLight1, s.models.gLight2]

/-- The `Render` call of a model whose per-model constants carry the given colour. -/
def renderCall (lib : Library α) (s : State α) (m : Model α) (colour : CVector3 α) : Call α :=
  Call.Render m.ptr m.mesh
    { s.gPerModelConstants with worldMatrix := lib.WorldMatrix m, objectColour := colour }

/-- The log of one call of `RenderSceneFromCamera`, written out. -/
def passCalls (lib : Library α) (cam : Camera α) (s : State α) : List (Call α) :=
  [ Call.UpdateConstantBuffer s.gPerFrameConstantBuffer
      { s.gPerFrameConstants with
        viewMatrix := lib.ViewMatrix cam, projectionMatrix := lib.ProjectionMatrix cam,
        viewProjectionMatrix := lib.ViewProjectionMatrix cam },
    Call.VSSetConstantBuffers 0 s.gPerFrameConstantBuffer,
    Call.PSSetConstantBuffers 0 s.gPerFrameConstantBuffer,
    Call.VSSetShader s.shaders.gPixelLightingVertexShader,
    Call.PSSetShader s.shaders.gPixelLightingPixelShader,
    Call.OMSetBlendState s.states.gNoBlendingState,
    Call.OMSetDepthStencilState s.states.gUseDepthBufferState,
    Call.RSSetState s.states.gCullBackState,
    Call.PSSetShaderResources 0 s.textures.gGroundDiffuseSpecularMapSRV,
    Call.PSSetSamplers 0 s.states.gAnisotropic4xSampler,
    renderCall lib s s.models.gGround s.gPerModelConstants.objectColour,
    Call.PSSetShaderResources 0 s.textures.gCrateDiffuseSpecularMapSRV,
    renderCall lib s s.models.gCrate s.gPerModelConstants.objectColour,
    Call.PSSetShaderResources 0 s.textures.gTeapotDiffuseSpecularMapSRV,
    renderCall lib s s.models.gTeapot s.gPerModelConstants.objectColour,
    Call.PSSetShaderResources 0 s.portal.gPortalTextureSRV,
    renderCall lib s s.models.gPortal s.gPerModelConstants.objectColour,
    Call.VSSetShader s.shaders.gSphereModelVertexShader,
    Call.PSSetShader s.shaders.gSphereModelPixelShader,
    Call.PSSetShaderResources 0 s.textures.gSphereDiffuseSpecularMapSRV,
    renderCall lib s s.models.gSphere s.gPerModelConstants.objectColour,
    Call.VSSetShader s.shaders.gCubeModelVertexShader,
    Call.PSSetShader s.shaders.gCubeModelPixelShader,
    Call.PSSetShaderResources 0 s.textures.gCubeStoneDiffuseSpecularMapSRV,
    Call.PSSetShaderResources 1 s.textures.gCubeWoodDiffuseSpecularMapSRV,
    renderCall lib s s.models.gCube s.gPerModelConstants.objectColour,
    Call.VSSetShader s.shaders.gLightModelVertexShader,
    Call.PSSetShader s.shaders.gLightModelPixelShader,
    Call.PSSetShaderResources 0 s.textures.gLightDiffuseMapSRV,
    Call.PSSetSamplers 0 s.states.gAnisotropic4xSampler,
    Call.OMSetBlendState s.states.gAdditiveBlendingState,
    Call.OMSetDepthStencilState s.states.gDepthReadOnlyState,
    Call.RSSetState s.states.gCullNoneState,
    renderCall lib s s.models.gLight1 s.lights.gLight1Colour,
    renderCall lib s s.models.gLight2 s.lights.gLight2Colour ]

/-! ## Observing a run of frames -/

/-- What the main loop does in one step: a call of `UpdateScene` or a call of `RenderScene`. -/
inductive Frame (α : Type) where
  | update (keys : Keys α) (frameTime : α)
  | render

/-- Run a sequence of frame steps, oldest first. -/
def runFrames [LinearOrderedField α] (lib : Library α) : List (Frame α) → State α → State α
  | [], s => s
  | Frame.update keys frameTime :: fs, s => runFrames lib fs (UpdateScene lib keys frameTime s)
  | Frame.render :: fs, s => runFrames lib fs (RenderScene lib s)

/-- The frame times passed to `UpdateScene` in a sequence of frame steps. -/
def frameTimes : List (Frame α) → List α
  | [] => []
  | Frame.update _ frameTime :: fs => frameTime :: frameTimes fs
  | Frame.render :: fs => frameTimes fs

/-! ## Initial state and sample environments -/

/-- The zero vector. -/
def CVector3.zero [Zero α] : CVector3 α := ⟨0, 0, 0⟩

/-- The zero matrix. -/
def CMatrix4x4.zero [Zero α] : CMatrix4x4 α :=
  ⟨0, 0, 0, 0, 0, 0, 0, 0, 0, 0, 0, 0, 0, 0, 0, 0⟩

/-- A null `Model*`. -/
def Model.null [Zero α] : Model α :=
  { ptr := 0, mesh := 0, position := CVector3.zero, rotation := CVector3.zero, scale := 0 }

/-- A null `Camera*`. -/
def Camera.null [Zero α] : Camera α :=
  { ptr := 0, position := CVector3.zero, rotation := CVector3.zero, nearClip := 0, farClip := 0 }

/-- The state at program start, after the static initialisers of `Scene.cpp`: pointers are
null, the constant structs are zero, the lights and the portal size have the values written in
the source.  The globals owned by other files are the parameter `common`. -/
def State.initial [Field α] (common : Common) : State α :=
  { meshes := ⟨0, 0, 0, 0, 0, 0, 0⟩
    models := ⟨Model.null, Model.null, Model.null, Model.null, Model.null, Model.null,
      Model.null, Model.null⟩
    gCamera := Camera.null
    gPortalCamera := Camera.null
    lights :=
      { gLight1Colour := ⟨0.8, 0.8, 1.0⟩
        gLight1Strength := 10
        gLight2Colour := ⟨1.0, 0.8, 0.2⟩
        gLight2Strength := 7
        gLight2MinStrength := 0
        gLight2MaxStrength := 7
        gLight2PulseSpeed := 1.5
        textureShiftFactor := 0
        gAmbientColour := ⟨0.2, 0.2, 0.3⟩
        gSpecularPower := 256
        gBackgroundColor := ⟨0.2, 0.2, 0.3, 1.0⟩ }
    lockFPS := true
    portal :=
      { gPortalWidth := 256, gPortalHeight := 256, gPortalTexture := 0, gPortalRenderTarget := 0,
        gPortalTextureSRV := 0, gPortalDepthStencil := 0, gPortalDepthStencilView := 0 }
    gPerFrameConstants :=
      { viewMatrix := CMatrix4x4.zero, projectionMatrix := CMatrix4x4.zero,
        viewProjectionMatrix := CMatrix4x4.zero, light1Position := CVector3.zero, padding1 := 0,
        light1Colour := CVector3.zero, padding2 := 0, light2Position := CVector3.zero,
        padding3 := 0, light2Colour := CVector3.zero, padding4 := 0, light2Strength := 0,
        ambientColour := CVector3.zero, specularPower := 0, cameraPosition := CVector3.zero,
        padding5 := 0 }
    gPerFrameConstantBuffer := 0
    gPerModelConstants :=
      { worldMatrix := CMatrix4x4.zero, objectColour := CVector3.zero, padding6 := 0,
        textureShiftFactor := 0 }
    gPerModelConstantBuffer := 0
    textures := ⟨0, 0, 0, 0, 0, 0, 0, 0, 0, 0, 0, 0, 0, 0⟩
    common := common
    shaders := ⟨0, 0, 0, 0, 0, 0, 0, 0⟩
    states := ⟨0, 0, 0, 0, 0, 0, 0⟩
    statics := { rotate := 0, fpsFrameTime := 0, effectTime := 0, frameCount := 0 }
    nextPtr := 0
    calls := [] }

/-- Sample values for the globals of other files: an 1280 by 960 window whose back buffer and
depth buffer are the objects 1001 and 1002, and no error so far. -/
def Common.sample : Common :=
  { gViewportWidth := 1280, gViewportHeight := 960, gBackBufferRenderTarget := 1001,
    gDepthStencil := 1002, gLastError := "" }

/-- A sample environment in which every call succeeds. -/
def Environment.allSucceed : Environment :=
  { NewMesh := fun _ => none
    LoadShaders := true
    loadedShaders := ⟨2001, 2002, 2003, 2004, 2005, 2006, 2007, 2008⟩
    CreateConstantBuffer := fun _ => true
    LoadTexture := fun _ => true
    CreateTexture2D := fun _ => 0
    CreateRenderTargetView := 0
    CreateShaderResourceView := 0
    CreateDepthStencilView := 0
    CreateStates := true
    createdStates := ⟨3001, 3002, 3003, 3004, 3005, 3006, 3007⟩ }

/-- A sample environment in which every call succeeds except `LoadTexture` of one file. -/
def Environment.missingTexture (file : String) : Environment :=
  { Environment.allSucceed with LoadTexture := fun f => f != file }

/-- A library with the given sine and cosine; the functions that `Scene.cpp` only passes
along are constant. -/
def Library.ofTrig [Zero α] (sin cos : α → α) : Library α :=
  { sin := sin, cos := cos, sinf := sin, pow := fun x _ => x, ToRadians := fun x => x,
    ViewMatrix := fun _ => CMatrix4x4.zero, ProjectionMatrix := fun _ => CMatrix4x4.zero,
    ViewProjectionMatrix := fun _ => CMatrix4x4.zero, WorldMatrix := fun _ => CMatrix4x4.zero }

/-- A sample device context with nothing bound and no view known. -/
def Pipeline.empty [Zero α] : Pipeline α :=
  { renderTarget := 0, depthStencil := 0, colourCleared := none, depthCleared := none,
    drawsSinceBind := 0, viewport := ⟨0, 0, 0, 0, 0, 0⟩, vertexShader := 0, pixelShader := 0,
    blendState := 0, depthStencilState := 0, rasterizerState := 0,
    psShaderResources := fun _ => 0, psRequested := fun _ => 0, psSamplers := fun _ => 0,
    vsConstantBuffers := fun _ => 0, psConstantBuffers := fun _ => 0, bufferData := fun _ => none,
    resourceOf := fun _ => none }

/-- A frame in which no key is pressed: the controls leave the sphere and the camera alone. -/
def Keys.idle : Keys α :=
  { modelControl := fun _ m => m, cameraControl := fun _ c => c, keyHitP := false }

/-! ## The objects of an initialised scene -/

/-- The state after `InitGeometry` and `InitScene`. -/
def initialised [Field α] (env : Environment) (lib : Library α) (cameraDefaults : Camera α)
    (s : State α) : State α :=
  (InitScene lib cameraDefaults (InitGeometry env s).2).2

/-- The objects `ReleaseResources` releases, in its order, for the globals of `s`: the states,
5 portal objects, 14 texture resources and views, 2 constant buffers, the shaders, 2 cameras,
8 models and 7 meshes. -/
def State.releaseOrder (s : State α) : List Obj :=
  [.states,
   .com s.portal.gPortalDepthStencilView, .com s.portal.gPortalDepthStencil,
   .com s.portal.gPortalTextureSRV, .com s.portal.gPortalRenderTarget,
   .com s.portal.gPortalTexture,
   .com s.textures.gLightDiffuseMapSRV, .com s.textures.gLightDiffuseMap,
   .com s.textures.gGroundDiffuseSpecularMapSRV, .com s.textures.gGroundDiffuseSpecularMap,
   .com s.textures.gSphereDiffuseSpecularMapSRV, .com s.textures.gSphereDiffuseSpecularMap,
   .com s.textures.gCrateDiffuseSpecularMapSRV, .com s.textures.gCrateDiffuseSpecularMap,
   .com s.textures.gTeapotDiffuseSpecularMapSRV, .com s.textures.gTeapotDiffuseSpecularMap,
   .com s.textures.gCubeStoneDiffuseSpecularMapSRV, .com s.textures.gCubeStoneDiffuseSpecularMap,
   .com s.textures.gCubeWoodDiffuseSpecularMapSRV, .com s.textures.gCubeWoodDiffuseSpecularMap,
   .com s.gPerModelConstantBuffer, .com s.gPerFrameConstantBuffer,
   .shaders,
   .camera s.gCamera.ptr, .camera s.gPortalCamera.ptr,
   .model s.models.gPortal.ptr, .model s.models.gLight1.ptr, .model s.models.gLight2.ptr,
   .model s.models.gGround.ptr, .model s.models.gSphere.ptr, .model s.models.gCrate.ptr,
   .model s.models.gCube.ptr, .model s.models.gTeapot.ptr,
   .mesh s.meshes.gPortalMesh, .mesh s.meshes.gLightMesh, .mesh s.meshes.gGroundMesh,
   .mesh s.meshes.gSphereMesh, .mesh s.meshes.gCrateMesh, .mesh s.meshes.gCubeMesh,
   .mesh s.meshes.gTeapotMesh]

/-- An object with its address moved up by `n`. -/
def Obj.shift (n : Nat) : Obj → Obj
  | .mesh p => .mesh (n + p)
  | .model p => .model (n + p)
  | .camera p => .camera (n + p)
  | .com p => .com (n + p)
  | .shaders => .shaders
  | .states => .states

/-- The objects of a fully initialised scene in the order of their creation, with addresses
counted from the allocation counter at the start. -/
def heldOffsets : List Obj :=
  [.mesh 1, .mesh 2, .mesh 3, .mesh 4, .mesh 5, .mesh 6, .mesh 7, .shaders, .com 8, .com 9,
   .com 10, .com 11, .com 12, .com 13, .com 14, .com 15, .com 16, .com 17, .com 18, .com 19,
   .com 20, .com 21, .com 22, .com 23, .com 24, .com 25, .com 26, .com 27, .com 28, .states,
   .model 29, .model 30, .model 31, .model 32, .model 33, .model 34, .model 35, .model 36,
   .camera 37, .camera 38]

/-- The same objects in the order `ReleaseResources` releases them. -/
def releaseOffsets : List Obj :=
  [.states, .com 28, .com 27, .com 26, .com 25, .com 24, .com 23, .com 22, .com 21, .com 20,
   .com 19, .com 18, .com 17, .com 16, .com 11, .com 10, .com 13, .com 12, .com 15, .com 14,
   .com 9, .com 8, .shaders, .camera 37, .camera 38, .model 36, .model 34, .model 35,
   .model 33, .model 32, .model 31, .model 30, .model 29, .mesh 7, .mesh 6, .mesh 5, .mesh 4,
   .mesh 3, .mesh 2, .mesh 1]

/-- The log of a successful `InitGeometry` from a state whose allocation counter is `n`. -/
def geometryCalls (env : Environment) (width height : Int) (n : Nat) : List (Call α) :=
  [ Call.NewMesh "Teapot.x" (some (n + 1)),
    Call.NewMesh "Cube.x" (some (n + 2)),
    Call.NewMesh "CargoContainer.x" (some (n + 3)),
    Call.NewMesh "Sphere.x" (some (n + 4)),
    Call.NewMesh "Hills.x" (some (n + 5)),
    Call.NewMesh "Light.x" (some (n + 6)),
    Call.NewMesh "Portal.x" (some (n + 7)),
    Call.LoadShaders true,
    Call.CreateConstantBuffer sizeofPerFrameConstants (n + 8),
    Call.CreateConstantBuffer sizeofPerModelConstants (n + 9),
    Call.LoadTexture "MetalDiffuseSpecular.dds" (some (n + 10, n + 11)),
    Call.LoadTexture "StoneDiffuseSpecular.dds" (some (n + 12, n + 13)),
    Call.LoadTexture "WoodDiffuseSpecular.dds" (some (n + 14, n + 15)),
    Call.LoadTexture "CargoA.dds" (some (n + 16, n + 17)),
    Call.LoadTexture "Brick1.jpg" (some (n + 18, n + 19)),
    Call.LoadTexture "GrassDiffuseSpecular.dds" (some (n + 20, n + 21)),
    Call.LoadTexture "Flare.jpg" (some (n + 22, n + 23)),
    Call.CreateTexture2D (portalTextureDesc width height)
      (env.CreateTexture2D (portalTextureDesc width height)) (n + 24),
    Call.CreateRenderTargetView (n + 24) env.CreateRenderTargetView (n + 25),
    Call.CreateShaderResourceView (n + 24) env.CreateShaderResourceView (n + 26),
    Call.CreateTexture2D (portalDepthDesc width height)
      (env.CreateTexture2D (portalDepthDesc width height)) (n + 27),
    Call.CreateDepthStencilView (n + 27) env.CreateDepthStencilView (n + 28),
    Call.CreateStates true ]

/-- A sample scene: the state after `InitGeometry` and `InitScene` from the initial state, in
the environment in which every call succeeds. -/
def State.sample : State ℚ :=
  initialised Environment.allSucceed (Library.ofTrig (fun x => x) (fun x => x)) Camera.null
    (State.initial Common.sample)

/-- The state of the running program: after `InitGeometry`, `InitScene` and a sequence of
steps of the main loop. -/
def running [LinearOrderedField α] (env : Environment) (lib : Library α)
    (cameraDefaults : Camera α) (frames : List (Frame α)) (s : State α) : State α :=
  runFrames lib frames (initialised env lib cameraDefaults s)

/-- The draws of the next `RenderScene` call of the running program, each with the device
context it is issued in; the device context before the frame is the one that the whole log
since the start state leaves from `p`. -/
def nextFrameDraws [LinearOrderedField α] (env : Environment) (lib : Library α)
    (cameraDefaults : Camera α) (frames : List (Frame α)) (s : State α) (p : Pipeline α) :
    List (Draw α) :=
  draws (p.run (newCalls s (running env lib cameraDefaults frames s)))
    (callsOf (RenderScene lib) (running env lib cameraDefaults frames s))

/-- What a draw of the portal model shows of the device context: the model, the render target,
the view last requested for pixel-shader slot 0 and the view the slot holds. -/
def Draw.slotZero (d : Draw α) : Ptr × Ptr × Ptr × Ptr :=
  (d.model, d.pipeline.renderTarget, d.pipeline.psRequested 0, d.pipeline.psShaderResources 0)

/-- Whether, at every draw of the portal model in `ds`, pixel-shader slot 0 holds
`gPortalTextureSRV`. -/
def portalDrawsHoldTexture (s : State α) (ds : List (Draw α)) : Bool :=
  ds.all fun d => d.model != s.models.gPortal.ptr ||
    d.pipeline.psShaderResources 0 == s.portal.gPortalTextureSRV

/-- The initial state of a program whose window module has already created the back buffer
and depth buffer views of `Common.sample`, the objects 1001 and 1002. -/
def State.started : State ℚ :=
  { State.initial Common.sample with nextPtr := 1002 }

/-! # Theorems -/

/-! ## Initialisation -/

/-- The portal colour texture has the RGBA format. -/
theorem portalTextureDesc_Format (w h : Int) :
    (portalTextureDesc w h).Format = DXGI_FORMAT.R8G8B8A8_UNORM := rfl

/-- The portal depth texture has the depth format. -/
theorem portalDepthDesc_Format (w h : Int) :
    (portalDepthDesc w h).Format = DXGI_FORMAT.D32_FLOAT := rfl

set_option maxHeartbeats 16000000 in
set_option maxRecDepth 8000 in
/-- The three ways a call of `InitGeometry` ends, found by following the source through
every call that can fail: an exception of another type leaves it, or it returns true and no
step failed, or it returns false and leaves the record of the failing step. -/
theorem InitGeometry_outcome (env : Environment) (s : State α) :
    ((InitGeometry env s).1 = Result.threw ∧
      meshFiles.findSome? env.NewMesh = some Exception.other) ∨
    ((InitGeometry env s).1 = Result.returned true ∧
      firstFailure env s.portal.gPortalWidth s.portal.gPortalHeight = none ∧
      (InitGeometry env s).2.common.gLastError = s.common.gLastError) ∨
    ((InitGeometry env s).1 = Result.returned false ∧ ∃ st k, FailureRecord env s st k) := by
  unfold FailureRecord
  rcases hm1 : env.NewMesh "Teapot.x" with _ | e
  swap
  · cases e
    · (generalize hg : InitGeometry env s = g; simp only [InitGeometry, loadMeshes, NewMesh, LoadShaders, CreateConstantBuffer, loadTextures, orElse, notCall, LoadTexture, CreateTexture2D, CreateRenderTargetView, CreateShaderResourceView, CreateDepthStencilView, CreateStates, emit, List.append_assoc, List.singleton_append, List.cons_append, List.nil_append, if_true, if_false, Bool.not_true, Bool.not_false, Bool.false_eq_true, reduceCtorEq, or_self, Nat.add_eq_zero, one_ne_zero, and_false, false_and, Nat.add_assoc, Nat.reduceAdd, *] at hg; subst hg; refine Or.inr (Or.inr ⟨rfl, Step.meshes, 0, ?_⟩); simp [meshFiles, textureFiles, newCalls, firstFailure, stepOrder, attemptedSteps, Step.fails, Step.message, Step.index, Call.step, Call.meshFile, Call.textureFile, throughFirst, releasedBy, createdBy, Call.created, Call.released, State.geometry, Exception.what, portalTextureDesc_Format, portalDepthDesc_Format, *])
    · (generalize hg : InitGeometry env s = g; simp only [InitGeometry, loadMeshes, NewMesh, LoadShaders, CreateConstantBuffer, loadTextures, orElse, notCall, LoadTexture, CreateTexture2D, CreateRenderTargetView, CreateShaderResourceView, CreateDepthStencilView, CreateStates, emit, List.append_assoc, List.singleton_append, List.cons_append, List.nil_append, if_true, if_false, Bool.not_true, Bool.not_false, Bool.false_eq_true, reduceCtorEq, or_self, Nat.add_eq_zero, one_ne_zero, and_false, false_and, Nat.add_assoc, Nat.reduceAdd, *] at hg; subst hg; refine Or.inl ⟨rfl, ?_⟩; simp [meshFiles, textureFiles, newCalls, firstFailure, stepOrder, attemptedSteps, Step.fails, Step.message, Step.index, Call.step, Call.meshFile, Call.textureFile, throughFirst, releasedBy, createdBy, Call.created, Call.released, State.geometry, Exception.what, portalTextureDesc_Format, portalDepthDesc_Format, *])
  rcases hm2 : env.NewMesh "Cube.x" with _ | e
  swap
  · cases e
    · (generalize hg : InitGeometry env s = g; simp only [InitGeometry, loadMeshes, NewMesh, LoadShaders, CreateConstantBuffer, loadTextures, orElse, notCall, LoadTexture, CreateTexture2D, CreateRenderTargetView, CreateShaderResourceView, CreateDepthStencilView, CreateStates, emit, List.append_assoc, List.singleton_append, List.cons_append, List.nil_append, if_true, if_false, Bool.not_true, Bool.not_false, Bool.false_eq_true, reduceCtorEq, or_self, Nat.add_eq_zero, one_ne_zero, and_false, false_and, Nat.add_assoc, Nat.reduceAdd, *] at hg; subst hg; refine Or.inr (Or.inr ⟨rfl, Step.meshes, 1, ?_⟩); simp [meshFiles, textureFiles, newCalls, firstFailure, stepOrder, attemptedSteps, Step.fails, Step.message, Step.index, Call.step, Call.meshFile, Call.textureFile, throughFirst, releasedBy, createdBy, Call.created, Call.released, State.geometry, Exception.what, portalTextureDesc_Format, portalDepthDesc_Format, *])
    · (generalize hg : InitGeometry env s = g; simp only [InitGeometry, loadMeshes, NewMesh, LoadShaders, CreateConstantBuffer, loadTextures, orElse, notCall, LoadTexture, CreateTexture2D, CreateRenderTargetView, CreateShaderResourceView, CreateDepthStencilView, CreateStates, emit, List.append_assoc, List.singleton_append, List.cons_append, List.nil_append, if_true, if_false, Bool.not_true, Bool.not_false, Bool.false_eq_true, reduceCtorEq, or_self, Nat.add_eq_zero, one_ne_zero, and_false, false_and, Nat.add_assoc, Nat.reduceAdd, *] at hg; subst hg; refine Or.inl ⟨rfl, ?_⟩; simp [meshFiles, textureFiles, newCalls, firstFailure, stepOrder, attemptedSteps, Step.fails, Step.message, Step.index, Call.step, Call.meshFile, Call.textureFile, throughFirst, releasedBy, createdBy, Call.created, Call.released, State.geometry, Exception.what, portalTextureDesc_Format, portalDepthDesc_Format, *])
  rcases hm3 : env.NewMesh "CargoContainer.x" with _ | e
  swap
  · cases e
    · (generalize hg : InitGeometry env s = g; simp only [InitGeometry, loadMeshes, NewMesh, LoadShaders, CreateConstantBuffer, loadTextures, orElse, notCall, LoadTexture, CreateTexture2D, CreateRenderTargetView, CreateShaderResourceView, CreateDepthStencilView, CreateStates, emit, List.append_assoc, List.singleton_append, List.cons_append, List.nil_append, if_true, if_false, Bool.not_true, Bool.not_false, Bool.false_eq_true, reduceCtorEq, or_self, Nat.add_eq_zero, one_ne_zero, and_false, false_and, Nat.add_assoc, Nat.reduceAdd, *] at hg; subst hg; refine Or.inr (Or.inr ⟨rfl, Step.meshes, 2, ?_⟩); simp [meshFiles, textureFiles, newCalls, firstFailure, stepOrder, attemptedSteps, Step.fails, Step.message, Step.index, Call.step, Call.meshFile, Call.textureFile, throughFirst, releasedBy, createdBy, Call.created, Call.released, State.geometry, Exception.what, portalTextureDesc_Format, portalDepthDesc_Format, *])
    · (generalize hg : InitGeometry env s = g; simp only [InitGeometry, loadMeshes, NewMesh, LoadShaders, CreateConstantBuffer, loadTextures, orElse, notCall, LoadTexture, CreateTexture2D, CreateRenderTargetView, CreateShaderResourceView, CreateDepthStencilView, CreateStates, emit, List.append_assoc, List.singleton_append, List.cons_append, List.nil_append, if_true, if_false, Bool.not_true, Bool.not_false, Bool.false_eq_true, reduceCtorEq, or_self, Nat.add_eq_zero, one_ne_zero, and_false, false_and, Nat.add_assoc, Nat.reduceAdd, *] at hg; subst hg; refine Or.inl ⟨rfl, ?_⟩; simp [meshFiles, textureFiles, newCalls, firstFailure, stepOrder, attemptedSteps, Step.fails, Step.message, Step.index, Call.step, Call.meshFile, Call.textureFile, throughFirst, releasedBy, createdBy, Call.created, Call.released, State.geometry, Exception.what, portalTextureDesc_Format, portalDepthDesc_Format, *])
  rcases hm4 : env.NewMesh "Sphere.x" with _ | e
  swap
  · cases e
    · (generalize hg : InitGeometry env s = g; simp only [InitGeometry, loadMeshes, NewMesh, LoadShaders, CreateConstantBuffer, loadTextures, orElse, notCall, LoadTexture, CreateTexture2D, CreateRenderTargetView, CreateShaderResourceView, CreateDepthStencilView, CreateStates, emit, List.append_assoc, List.singleton_append, List.cons_append, List.nil_append, if_true, if_false, Bool.not_true, Bool.not_false, Bool.false_eq_true, reduceCtorEq, or_self, Nat.add_eq_zero, one_ne_zero, and_false, false_and, Nat.add_assoc, Nat.reduceAdd, *] at hg; subst hg; refine Or.inr (Or.inr ⟨rfl, Step.meshes, 3, ?_⟩); simp [meshFiles, textureFiles, newCalls, firstFailure, stepOrder, attemptedSteps, Step.fails, Step.message, Step.index, Call.step, Call.meshFile, Call.textureFile, throughFirst, releasedBy, createdBy, Call.created, Call.released, State.geometry, Exception.what, portalTextureDesc_Format, portalDepthDesc_Format, *])
    · (generalize hg : InitGeometry env s = g; simp only [InitGeometry, loadMeshes, NewMesh, LoadShaders, CreateConstantBuffer, loadTextures, orElse, notCall, LoadTexture, CreateTexture2D, CreateRenderTargetView, CreateShaderResourceView, CreateDepthStencilView, CreateStates, emit, List.append_assoc, List.singleton_append, List.cons_append, List.nil_append, if_true, if_false, Bool.not_true, Bool.not_false, Bool.false_eq_true, reduceCtorEq, or_self, Nat.add_eq_zero, one_ne_zero, and_false, false_and, Nat.add_assoc, Nat.reduceAdd, *] at hg; subst hg; refine Or.inl ⟨rfl, ?_⟩; simp [meshFiles, textureFiles, newCalls, firstFailure, stepOrder, attemptedSteps, Step.fails, Step.message, Step.index, Call.step, Call.meshFile, Call.textureFile, throughFirst, releasedBy, createdBy, Call.created, Call.released, State.geometry, Exception.what, portalTextureDesc_Format, portalDepthDesc_Format, *])
  rcases hm5 : env.NewMesh "Hills.x" with _ | e
  swap
  · cases e
    · (generalize hg : InitGeometry env s = g; simp only [InitGeometry, loadMeshes, NewMesh, LoadShaders, CreateConstantBuffer, loadTextures, orElse, notCall, LoadTexture, CreateTexture2D, CreateRenderTargetView, CreateShaderResourceView, CreateDepthStencilView, CreateStates, emit, List.append_assoc, List.singleton_append, List.cons_append, List.nil_append, if_true, if_false, Bool.not_true, Bool.not_false, Bool.false_eq_true, reduceCtorEq, or_self, Nat.add_eq_zero, one_ne_zero, and_false, false_and, Nat.add_assoc, Nat.reduceAdd, *] at hg; subst hg; refine Or.inr (Or.inr ⟨rfl, Step.meshes, 4, ?_⟩); simp [meshFiles, textureFiles, newCalls, firstFailure, stepOrder, attemptedSteps, Step.fails, Step.message, Step.index, Call.step, Call.meshFile, Call.textureFile, throughFirst, releasedBy, createdBy, Call.created, Call.released, State.geometry, Exception.what, portalTextureDesc_Format, portalDepthDesc_Format, *])
    · (generalize hg : InitGeometry env s = g; simp only [InitGeometry, loadMeshes, NewMesh, LoadShaders, CreateConstantBuffer, loadTextures, orElse, notCall, LoadTexture, CreateTexture2D, CreateRenderTargetView, CreateShaderResourceView, CreateDepthStencilView, CreateStates, emit, List.append_assoc, List.singleton_append, List.cons_append, List.nil_append, if_true, if_false, Bool.not_true, Bool.not_false, Bool.false_eq_true, reduceCtorEq, or_self, Nat.add_eq_zero, one_ne_zero, and_false, false_and, Nat.add_assoc, Nat.reduceAdd, *] at hg; subst hg; refine Or.inl ⟨rfl, ?_⟩; simp [meshFiles, textureFiles, newCalls, firstFailure, stepOrder, attemptedSteps, Step.fails, Step.message, Step.index, Call.step, Call.meshFile, Call.textureFile, throughFirst, releasedBy, createdBy, Call.created, Call.released, State.geometry, Exception.what, portalTextureDesc_Format, portalDepthDesc_Format, *])
  rcases hm6 : env.NewMesh "Light.x" with _ | e
  swap
  · cases e
    · (generalize hg : InitGeometry env s = g; simp only [InitGeometry, loadMeshes, NewMesh, LoadShaders, CreateConstantBuffer, loadTextures, orElse, notCall, LoadTexture, CreateTexture2D, CreateRenderTargetView, CreateShaderResourceView, CreateDepthStencilView, CreateStates, emit, List.append_assoc, List.singleton_append, List.cons_append, List.nil_append, if_true, if_false, Bool.not_true, Bool.not_false, Bool.false_eq_true, reduceCtorEq, or_self, Nat.add_eq_zero, one_ne_zero, and_false, false_and, Nat.add_assoc, Nat.reduceAdd, *] at hg; subst hg; refine Or.inr (Or.inr ⟨rfl, Step.meshes, 5, ?_⟩); simp [meshFiles, textureFiles, newCalls, firstFailure, stepOrder, attemptedSteps, Step.fails, Step.message, Step.index, Call.step, Call.meshFile, Call.textureFile, throughFirst, releasedBy, createdBy, Call.created, Call.released, State.geometry, Exception.what, portalTextureDesc_Format, portalDepthDesc_Format, *])
    · (generalize hg : InitGeometry env s = g; simp only [InitGeometry, loadMeshes, NewMesh, LoadShaders, CreateConstantBuffer, loadTextures, orElse, notCall, LoadTexture, CreateTexture2D, CreateRenderTargetView, CreateShaderResourceView, CreateDepthStencilView, CreateStates, emit, List.append_assoc, List.singleton_append, List.cons_append, List.nil_append, if_true, if_false, Bool.not_true, Bool.not_false, Bool.false_eq_true, reduceCtorEq, or_self, Nat.add_eq_zero, one_ne_zero, and_false, false_and, Nat.add_assoc, Nat.reduceAdd, *] at hg; subst hg; refine Or.inl ⟨rfl, ?_⟩; simp [meshFiles, textureFiles, newCalls, firstFailure, stepOrder, attemptedSteps, Step.fails, Step.message, Step.index, Call.step, Call.meshFile, Call.textureFile, throughFirst, releasedBy, createdBy, Call.created, Call.released, State.geometry, Exception.what, portalTextureDesc_Format, portalDepthDesc_Format, *])
  rcases hm7 : env.NewMesh "Portal.x" with _ | e
  swap
  · cases e
    · (generalize hg : InitGeometry env s = g; simp only [InitGeometry, loadMeshes, NewMesh, LoadShaders, CreateConstantBuffer, loadTextures, orElse, notCall, LoadTexture, CreateTexture2D, CreateRenderTargetView, CreateShaderResourceView, CreateDepthStencilView, CreateStates, emit, List.append_assoc, List.singleton_append, List.cons_append, List.nil_append, if_true, if_false, Bool.not_true, Bool.not_false, Bool.false_eq_true, reduceCtorEq, or_self, Nat.add_eq_zero, one_ne_zero, and_false, false_and, Nat.add_assoc, Nat.reduceAdd, *] at hg; subst hg; refine Or.inr (Or.inr ⟨rfl, Step.meshes, 6, ?_⟩); simp [meshFiles, textureFiles, newCalls, firstFailure, stepOrder, attemptedSteps, Step.fails, Step.message, Step.index, Call.step, Call.meshFile, Call.textureFile, throughFirst, releasedBy, createdBy, Call.created, Call.released, State.geometry, Exception.what, portalTextureDesc_Format, portalDepthDesc_Format, *])
    · (generalize hg : InitGeometry env s = g; simp only [InitGeometry, loadMeshes, NewMesh, LoadShaders, CreateConstantBuffer, loadTextures, orElse, notCall, LoadTexture, CreateTexture2D, CreateRenderTargetView, CreateShaderResourceView, CreateDepthStencilView, CreateStates, emit, List.append_assoc, List.singleton_append, List.cons_append, List.nil_append, if_true, if_false, Bool.not_true, Bool.not_false, Bool.false_eq_true, reduceCtorEq, or_self, Nat.add_eq_zero, one_ne_zero, and_false, false_and, Nat.add_assoc, Nat.reduceAdd, *] at hg; subst hg; refine Or.inl ⟨rfl, ?_⟩; simp [meshFiles, textureFiles, newCalls, firstFailure, stepOrder, attemptedSteps, Step.fails, Step.message, Step.index, Call.step, Call.meshFile, Call.textureFile, throughFirst, releasedBy, createdBy, Call.created, Call.released, State.geometry, Exception.what, portalTextureDesc_Format, portalDepthDesc_Format, *])
  rcases hs : env.LoadShaders with _ | _
  · (generalize hg : InitGeometry env s = g; simp only [InitGeometry, loadMeshes, NewMesh, LoadShaders, CreateConstantBuffer, loadTextures, orElse, notCall, LoadTexture, CreateTexture2D, CreateRenderTargetView, CreateShaderResourceView, CreateDepthStencilView, CreateStates, emit, List.append_assoc, List.singleton_append, List.cons_append, List.nil_append, if_true, if_false, Bool.not_true, Bool.not_false, Bool.false_eq_true, reduceCtorEq, or_self, Nat.add_eq_zero, one_ne_zero, and_false, false_and, Nat.add_assoc, Nat.reduceAdd, *] at hg; subst hg; refine Or.inr (Or.inr ⟨rfl, Step.shaders, 7, ?_⟩); simp [meshFiles, textureFiles, newCalls, firstFailure, stepOrder, attemptedSteps, Step.fails, Step.message, Step.index, Call.step, Call.meshFile, Call.textureFile, throughFirst, releasedBy, createdBy, Call.created, Call.released, State.geometry, Exception.what, portalTextureDesc_Format, portalDepthDesc_Format, *])
  rcases hb1 : env.CreateConstantBuffer sizeofPerFrameConstants with _ | _
  · cases hb2 : env.CreateConstantBuffer sizeofPerModelConstants <;> (generalize hg : InitGeometry env s = g; simp only [InitGeometry, loadMeshes, NewMesh, LoadShaders, CreateConstantBuffer, loadTextures, orElse, notCall, LoadTexture, CreateTexture2D, CreateRenderTargetView, CreateShaderResourceView, CreateDepthStencilView, CreateStates, emit, List.append_assoc, List.singleton_append, List.cons_append, List.nil_append, if_true, if_false, Bool.not_true, Bool.not_false, Bool.false_eq_true, reduceCtorEq, or_self, Nat.add_eq_zero, one_ne_zero, and_false, false_and, Nat.add_assoc, Nat.reduceAdd, *] at hg; subst hg; refine Or.inr (Or.inr ⟨rfl, Step.constantBuffers, 10, ?_⟩); simp [meshFiles, textureFiles, newCalls, firstFailure, stepOrder, attemptedSteps, Step.fails, Step.message, Step.index, Call.step, Call.meshFile, Call.textureFile, throughFirst, releasedBy, createdBy, Call.created, Call.released, State.geometry, Exception.what, portalTextureDesc_Format, portalDepthDesc_Format, *])
  rcases hb2 : env.CreateConstantBuffer sizeofPerModelConstants with _ | _
  · (generalize hg : InitGeometry env s = g; simp only [InitGeometry, loadMeshes, NewMesh, LoadShaders, CreateConstantBuffer, loadTextures, orElse, notCall, LoadTexture, CreateTexture2D, CreateRenderTargetView, CreateShaderResourceView, CreateDepthStencilView, CreateStates, emit, List.append_assoc, List.singleton_append, List.cons_append, List.nil_append, if_true, if_false, Bool.not_true, Bool.not_false, Bool.false_eq_true, reduceCtorEq, or_self, Nat.add_eq_zero, one_ne_zero, and_false, false_and, Nat.add_assoc, Nat.reduceAdd, *] at hg; subst hg; refine Or.inr (Or.inr ⟨rfl, Step.constantBuffers, 10, ?_⟩); simp [meshFiles, textureFiles, newCalls, firstFailure, stepOrder, attemptedSteps, Step.fails, Step.message, Step.index, Call.step, Call.meshFile, Call.textureFile, throughFirst, releasedBy, createdBy, Call.created, Call.released, State.geometry, Exception.what, portalTextureDesc_Format, portalDepthDesc_Format, *])
  rcases ht1 : env.LoadTexture "MetalDiffuseSpecular.dds" with _ | _
  · (generalize hg : InitGeometry env s = g; simp only [InitGeometry, loadMeshes, NewMesh, LoadShaders, CreateConstantBuffer, loadTextures, orElse, notCall, LoadTexture, CreateTexture2D, CreateRenderTargetView, CreateShaderResourceView, CreateDepthStencilView, CreateStates, emit, List.append_assoc, List.singleton_append, List.cons_append, List.nil_append, if_true, if_false, Bool.not_true, Bool.not_false, Bool.false_eq_true, reduceCtorEq, or_self, Nat.add_eq_zero, one_ne_zero, and_false, false_and, Nat.add_assoc, Nat.reduceAdd, *] at hg; subst hg; refine Or.inr (Or.inr ⟨rfl, Step.textures, 10, ?_⟩); simp [meshFiles, textureFiles, newCalls, firstFailure, stepOrder, attemptedSteps, Step.fails, Step.message, Step.index, Call.step, Call.meshFile, Call.textureFile, throughFirst, releasedBy, createdBy, Call.created, Call.released, State.geometry, Exception.what, portalTextureDesc_Format, portalDepthDesc_Format, *])
  rcases ht2 : env.LoadTexture "StoneDiffuseSpecular.dds" with _ | _
  · (generalize hg : InitGeometry env s = g; simp only [InitGeometry, loadMeshes, NewMesh, LoadShaders, CreateConstantBuffer, loadTextures, orElse, notCall, LoadTexture, CreateTexture2D, CreateRenderTargetView, CreateShaderResourceView, CreateDepthStencilView, CreateStates, emit, List.append_assoc, List.singleton_append, List.cons_append, List.nil_append, if_true, if_false, Bool.not_true, Bool.not_false, Bool.false_eq_true, reduceCtorEq, or_self, Nat.add_eq_zero, one_ne_zero, and_false, false_and, Nat.add_assoc, Nat.reduceAdd, *] at hg; subst hg; refine Or.inr (Or.inr ⟨rfl, Step.textures, 12, ?_⟩); simp [meshFiles, textureFiles, newCalls, firstFailure, stepOrder, attemptedSteps, Step.fails, Step.message, Step.index, Call.step, Call.meshFile, Call.textureFile, throughFirst, releasedBy, createdBy, Call.created, Call.released, State.geometry, Exception.what, portalTextureDesc_Format, portalDepthDesc_Format, *])
  rcases ht3 : env.LoadTexture "WoodDiffuseSpecular.dds" with _ | _
  · (generalize hg : InitGeometry env s = g; simp only [InitGeometry, loadMeshes, NewMesh, LoadShaders, CreateConstantBuffer, loadTextures, orElse, notCall, LoadTexture, CreateTexture2D, CreateRenderTargetView, CreateShaderResourceView, CreateDepthStencilView, CreateStates, emit, List.append_assoc, List.singleton_append, List.cons_append, List.nil_append, if_true, if_false, Bool.not_true, Bool.not_false, Bool.false_eq_true, reduceCtorEq, or_self, Nat.add_eq_zero, one_ne_zero, and_false, false_and, Nat.add_assoc, Nat.reduceAdd, *] at hg; subst hg; refine Or.inr (Or.inr ⟨rfl, Step.textures, 14, ?_⟩); simp [meshFiles, textureFiles, newCalls, firstFailure, stepOrder, attemptedSteps, Step.fails, Step.message, Step.index, Call.step, Call.meshFile, Call.textureFile, throughFirst, releasedBy, createdBy, Call.created, Call.released, State.geometry, Exception.what, portalTextureDesc_Format, portalDepthDesc_Format, *])
  rcases ht4 : env.LoadTexture "CargoA.dds" with _ | _
  · (generalize hg : InitGeometry env s = g; simp only [InitGeometry, loadMeshes, NewMesh, LoadShaders, CreateConstantBuffer, loadTextures, orElse, notCall, LoadTexture, CreateTexture2D, CreateRenderTargetView, CreateShaderResourceView, CreateDepthStencilView, CreateStates, emit, List.append_assoc, List.singleton_append, List.cons_append, List.nil_append, if_true, if_false, Bool.not_true, Bool.not_false, Bool.false_eq_true, reduceCtorEq, or_self, Nat.add_eq_zero, one_ne_zero, and_false, false_and, Nat.add_assoc, Nat.reduceAdd, *] at hg; subst hg; refine Or.inr (Or.inr ⟨rfl, Step.textures, 16, ?_⟩); simp [meshFiles, textureFiles, newCalls, firstFailure, stepOrder, attemptedSteps, Step.fails, Step.message, Step.index, Call.step, Call.meshFile, Call.textureFile, throughFirst, releasedBy, createdBy, Call.created, Call.released, State.geometry, Exception.what, portalTextureDesc_Format, portalDepthDesc_Format, *])
  rcases ht5 : env.LoadTexture "Brick1.jpg" with _ | _
  · (generalize hg : InitGeometry env s = g; simp only [InitGeometry, loadMeshes, NewMesh, LoadShaders, CreateConstantBuffer, loadTextures, orElse, notCall, LoadTexture, CreateTexture2D, CreateRenderTargetView, CreateShaderResourceView, CreateDepthStencilView, CreateStates, emit, List.append_assoc, List.singleton_append, List.cons_append, List.nil_append, if_true, if_false, Bool.not_true, Bool.not_false, Bool.false_eq_true, reduceCtorEq, or_self, Nat.add_eq_zero, one_ne_zero, and_false, false_and, Nat.add_assoc, Nat.reduceAdd, *] at hg; subst hg; refine Or.inr (Or.inr ⟨rfl, Step.textures, 18, ?_⟩); simp [meshFiles, textureFiles, newCalls, firstFailure, stepOrder, attemptedSteps, Step.fails, Step.message, Step.index, Call.step, Call.meshFile, Call.textureFile, throughFirst, releasedBy, createdBy, Call.created, Call.released, State.geometry, Exception.what, portalTextureDesc_Format, portalDepthDesc_Format, *])
  rcases ht6 : env.LoadTexture "GrassDiffuseSpecular.dds" with _ | _
  · (generalize hg : InitGeometry env s = g; simp only [InitGeometry, loadMeshes, NewMesh, LoadShaders, CreateConstantBuffer, loadTextures, orElse, notCall, LoadTexture, CreateTexture2D, CreateRenderTargetView, CreateShaderResourceView, CreateDepthStencilView, CreateStates, emit, List.append_assoc, List.singleton_append, List.cons_append, List.nil_append, if_true, if_false, Bool.not_true, Bool.not_false, Bool.false_eq_true, reduceCtorEq, or_self, Nat.add_eq_zero, one_ne_zero, and_false, false_and, Nat.add_assoc, Nat.reduceAdd, *] at hg; subst hg; refine Or.inr (Or.inr ⟨rfl, Step.textures, 20, ?_⟩); simp [meshFiles, textureFiles, newCalls, firstFailure, stepOrder, attemptedSteps, Step.fails, Step.message, Step.index, Call.step, Call.meshFile, Call.textureFile, throughFirst, releasedBy, createdBy, Call.created, Call.released, State.geometry, Exception.what, portalTextureDesc_Format, portalDepthDesc_Format, *])
  rcases ht7 : env.LoadTexture "Flare.jpg" with _ | _
  · (generalize hg : InitGeometry env s = g; simp only [InitGeometry, loadMeshes, NewMesh, LoadShaders, CreateConstantBuffer, loadTextures, orElse, notCall, LoadTexture, CreateTexture2D, CreateRenderTargetView, CreateShaderResourceView, CreateDepthStencilView, CreateStates, emit, List.append_assoc, List.singleton_append, List.cons_append, List.nil_append, if_true, if_false, Bool.not_true, Bool.not_false, Bool.false_eq_true, reduceCtorEq, or_self, Nat.add_eq_zero, one_ne_zero, and_false, false_and, Nat.add_assoc, Nat.reduceAdd, *] at hg; subst hg; refine Or.inr (Or.inr ⟨rfl, Step.textures, 22, ?_⟩); simp [meshFiles, textureFiles, newCalls, firstFailure, stepOrder, attemptedSteps, Step.fails, Step.message, Step.index, Call.step, Call.meshFile, Call.textureFile, throughFirst, releasedBy, createdBy, Call.created, Call.released, State.geometry, Exception.what, portalTextureDesc_Format, portalDepthDesc_Format, *])
  rcases hp1 : FAILED (env.CreateTexture2D (portalTextureDesc s.portal.gPortalWidth s.portal.gPortalHeight)) with _ | _
  swap
  · (generalize hg : InitGeometry env s = g; simp only [InitGeometry, loadMeshes, NewMesh, LoadShaders, CreateConstantBuffer, loadTextures, orElse, notCall, LoadTexture, CreateTexture2D, CreateRenderTargetView, CreateShaderResourceView, CreateDepthStencilView, CreateStates, emit, List.append_assoc, List.singleton_append, List.cons_append, List.nil_append, if_true, if_false, Bool.not_true, Bool.not_false, Bool.false_eq_true, reduceCtorEq, or_self, Nat.add_eq_zero, one_ne_zero, and_false, false_and, Nat.add_assoc, Nat.reduceAdd, *] at hg; subst hg; refine Or.inr (Or.inr ⟨rfl, Step.portalTexture, 24, ?_⟩); simp [meshFiles, textureFiles, newCalls, firstFailure, stepOrder, attemptedSteps, Step.fails, Step.message, Step.index, Call.step, Call.meshFile, Call.textureFile, throughFirst, releasedBy, createdBy, Call.created, Call.released, State.geometry, Exception.what, portalTextureDesc_Format, portalDepthDesc_Format, *])
  rcases hp2 : FAILED env.CreateRenderTargetView with _ | _
  swap
  · (generalize hg : InitGeometry env s = g; simp only [InitGeometry, loadMeshes, NewMesh, LoadShaders, CreateConstantBuffer, loadTextures, orElse, notCall, LoadTexture, CreateTexture2D, CreateRenderTargetView, CreateShaderResourceView, CreateDepthStencilView, CreateStates, emit, List.append_assoc, List.singleton_append, List.cons_append, List.nil_append, if_true, if_false, Bool.not_true, Bool.not_false, Bool.false_eq_true, reduceCtorEq, or_self, Nat.add_eq_zero, one_ne_zero, and_false, false_and, Nat.add_assoc, Nat.reduceAdd, *] at hg; subst hg; refine Or.inr (Or.inr ⟨rfl, Step.portalRenderTarget, 25, ?_⟩); simp [meshFiles, textureFiles, newCalls, firstFailure, stepOrder, attemptedSteps, Step.fails, Step.message, Step.index, Call.step, Call.meshFile, Call.textureFile, throughFirst, releasedBy, createdBy, Call.created, Call.released, State.geometry, Exception.what, portalTextureDesc_Format, portalDepthDesc_Format, *])
  rcases hp3 : FAILED env.CreateShaderResourceView with _ | _
  swap
  · (generalize hg : InitGeometry env s = g; simp only [InitGeometry, loadMeshes, NewMesh, LoadShaders, CreateConstantBuffer, loadTextures, orElse, notCall, LoadTexture, CreateTexture2D, CreateRenderTargetView, CreateShaderResourceView, CreateDepthStencilView, CreateStates, emit, List.append_assoc, List.singleton_append, List.cons_append, List.nil_append, if_true, if_false, Bool.not_true, Bool.not_false, Bool.false_eq_true, reduceCtorEq, or_self, Nat.add_eq_zero, one_ne_zero, and_false, false_and, Nat.add_assoc, Nat.reduceAdd, *] at hg; subst hg; refine Or.inr (Or.inr ⟨rfl, Step.portalShaderResource, 26, ?_⟩); simp [meshFiles, textureFiles, newCalls, firstFailure, stepOrder, attemptedSteps, Step.fails, Step.message, Step.index, Call.step, Call.meshFile, Call.textureFile, throughFirst, releasedBy, createdBy, Call.created, Call.released, State.geometry, Exception.what, portalTextureDesc_Format, portalDepthDesc_Format, *])
  rcases hp4 : FAILED (env.CreateTexture2D (portalDepthDesc s.portal.gPortalWidth s.portal.gPortalHeight)) with _ | _
  swap
  · (generalize hg : InitGeometry env s = g; simp only [InitGeometry, loadMeshes, NewMesh, LoadShaders, CreateConstantBuffer, loadTextures, orElse, notCall, LoadTexture, CreateTexture2D, CreateRenderTargetView, CreateShaderResourceView, CreateDepthStencilView, CreateStates, emit, List.append_assoc, List.singleton_append, List.cons_append, List.nil_append, if_true, if_false, Bool.not_true, Bool.not_false, Bool.false_eq_true, reduceCtorEq, or_self, Nat.add_eq_zero, one_ne_zero, and_false, false_and, Nat.add_assoc, Nat.reduceAdd, *] at hg; subst hg; refine Or.inr (Or.inr ⟨rfl, Step.portalDepthTexture, 27, ?_⟩); simp [meshFiles, textureFiles, newCalls, firstFailure, stepOrder, attemptedSteps, Step.fails, Step.message, Step.index, Call.step, Call.meshFile, Call.textureFile, throughFirst, releasedBy, createdBy, Call.created, Call.released, State.geometry, Exception.what, portalTextureDesc_Format, portalDepthDesc_Format, *])
  rcases hp5 : FAILED env.CreateDepthStencilView with _ | _
  swap
  · (generalize hg : InitGeometry env s = g; simp only [InitGeometry, loadMeshes, NewMesh, LoadShaders, CreateConstantBuffer, loadTextures, orElse, notCall, LoadTexture, CreateTexture2D, CreateRenderTargetView, CreateShaderResourceView, CreateDepthStencilView, CreateStates, emit, List.append_assoc, List.singleton_append, List.cons_append, List.nil_append, if_true, if_false, Bool.not_true, Bool.not_false, Bool.false_eq_true, reduceCtorEq, or_self, Nat.add_eq_zero, one_ne_zero, and_false, false_and, Nat.add_assoc, Nat.reduceAdd, *] at hg; subst hg; refine Or.inr (Or.inr ⟨rfl, Step.portalDepthView, 28, ?_⟩); simp [meshFiles, textureFiles, newCalls, firstFailure, stepOrder, attemptedSteps, Step.fails, Step.message, Step.index, Call.step, Call.meshFile, Call.textureFile, throughFirst, releasedBy, createdBy, Call.created, Call.released, State.geometry, Exception.what, portalTextureDesc_Format, portalDepthDesc_Format, *])
  rcases hc : env.CreateStates with _ | _
  · (generalize hg : InitGeometry env s = g; simp only [InitGeometry, loadMeshes, NewMesh, LoadShaders, CreateConstantBuffer, loadTextures, orElse, notCall, LoadTexture, CreateTexture2D, CreateRenderTargetView, CreateShaderResourceView, CreateDepthStencilView, CreateStates, emit, List.append_assoc, List.singleton_append, List.cons_append, List.nil_append, if_true, if_false, Bool.not_true, Bool.not_false, Bool.false_eq_true, reduceCtorEq, or_self, Nat.add_eq_zero, one_ne_zero, and_false, false_and, Nat.add_assoc, Nat.reduceAdd, *] at hg; subst hg; refine Or.inr (Or.inr ⟨rfl, Step.states, 29, ?_⟩); simp [meshFiles, textureFiles, newCalls, firstFailure, stepOrder, attemptedSteps, Step.fails, Step.message, Step.index, Call.step, Call.meshFile, Call.textureFile, throughFirst, releasedBy, createdBy, Call.created, Call.released, State.geometry, Exception.what, portalTextureDesc_Format, portalDepthDesc_Format, *])
  (generalize hg : InitGeometry env s = g; simp only [InitGeometry, loadMeshes, NewMesh, LoadShaders, CreateConstantBuffer, loadTextures, orElse, notCall, LoadTexture, CreateTexture2D, CreateRenderTargetView, CreateShaderResourceView, CreateDepthStencilView, CreateStates, emit, List.append_assoc, List.singleton_append, List.cons_append, List.nil_append, if_true, if_false, Bool.not_true, Bool.not_false, Bool.false_eq_true, reduceCtorEq, or_self, Nat.add_eq_zero, one_ne_zero, and_false, false_and, Nat.add_assoc, Nat.reduceAdd, *] at hg; subst hg; refine Or.inr (Or.inl ⟨rfl, ?_, ?_⟩) <;> simp [meshFiles, textureFiles, newCalls, firstFailure, stepOrder, attemptedSteps, Step.fails, Step.message, Step.index, Call.step, Call.meshFile, Call.textureFile, throughFirst, releasedBy, createdBy, Call.created, Call.released, State.geometry, Exception.what, portalTextureDesc_Format, portalDepthDesc_Format, *])

/-- No step fails exactly when every call of the environment succeeds. -/
theorem firstFailure_eq_none (env : Environment) (w h : Int) :
    firstFailure env w h = none ↔
      ((∀ f ∈ meshFiles, env.NewMesh f = none) ∧ env.LoadShaders = true ∧
       env.CreateConstantBuffer sizeofPerFrameConstants = true ∧
       env.CreateConstantBuffer sizeofPerModelConstants = true ∧
       (∀ f ∈ textureFiles, env.LoadTexture f = true) ∧
       FAILED (env.CreateTexture2D (portalTextureDesc w h)) = false ∧
       FAILED env.CreateRenderTargetView = false ∧
       FAILED env.CreateShaderResourceView = false ∧
       FAILED (env.CreateTexture2D (portalDepthDesc w h)) = false ∧
       FAILED env.CreateDepthStencilView = false ∧
       env.CreateStates = true) := by
  simp [firstFailure, stepOrder, Step.fails, meshFiles, textureFiles]
  tauto

/-- An exception of another type means that some mesh constructor threw. -/
theorem findSome_other (env : Environment)
    (h : meshFiles.findSome? env.NewMesh = some Exception.other) :
    ¬ ∀ f ∈ meshFiles, env.NewMesh f = none := by
  intro hall
  have : meshFiles.findSome? env.NewMesh = none := by
    rw [List.findSome?_eq_none_iff]
    exact hall
  rw [this] at h
  cases h

/-- C2. `InitGeometry` returns true exactly when every step succeeds: the seven meshes are
constructed without an exception, `LoadShaders` returns true, both constant buffers are
non-null, the seven `LoadTexture` calls return true, the five portal creations do not fail and
`CreateStates` returns true; and when it returns true, `gLastError` is what it was. -/
theorem InitGeometry_true_iff (env : Environment) (s : State α) :
    ((InitGeometry env s).1 = Result.returned true ↔
      ((∀ f ∈ meshFiles, env.NewMesh f = none) ∧ env.LoadShaders = true ∧
       env.CreateConstantBuffer sizeofPerFrameConstants = true ∧
       env.CreateConstantBuffer sizeofPerModelConstants = true ∧
       (∀ f ∈ textureFiles, env.LoadTexture f = true) ∧
       FAILED (env.CreateTexture2D
         (portalTextureDesc s.portal.gPortalWidth s.portal.gPortalHeight)) = false ∧
       FAILED env.CreateRenderTargetView = false ∧
       FAILED env.CreateShaderResourceView = false ∧
       FAILED (env.CreateTexture2D
         (portalDepthDesc s.portal.gPortalWidth s.portal.gPortalHeight)) = false ∧
       FAILED env.CreateDepthStencilView = false ∧
       env.CreateStates = true)) ∧
    ((InitGeometry env s).1 = Result.returned true →
      (InitGeometry env s).2.common.gLastError = s.common.gLastError) := by
  rw [← firstFailure_eq_none]
  rcases InitGeometry_outcome env s with ⟨h1, h2⟩ | ⟨h1, h2, h3⟩ | ⟨h1, st, k, h2, _⟩
  · have hne : firstFailure env s.portal.gPortalWidth s.portal.gPortalHeight ≠ none := by
      intro hn
      exact findSome_other env h2 ((firstFailure_eq_none env _ _).1 hn).1
    constructor
    · constructor
      · intro h; rw [h1] at h; cases h
      · intro h; exact absurd h hne
    · intro h; rw [h1] at h; cases h
  · exact ⟨⟨fun _ => h2, fun _ => h1⟩, fun _ => h3⟩
  · constructor
    · constructor
      · intro h; rw [h1] at h; cases h
      · intro h; rw [h2] at h; cases h
    · intro h; rw [h1] at h; cases h

/-- The steps up to a step have an index up to its index. -/
theorem index_le_of_mem_take (st st' : Step) (h : st' ∈ stepOrder.take (st.index + 1)) :
    st'.index ≤ st.index := by
  cases st <;> cases st' <;> simp [stepOrder, Step.index] at h ⊢

/-- Every step is in the order of the source. -/
theorem mem_stepOrder (st : Step) : st ∈ stepOrder := by
  cases st <;> simp [stepOrder]

/-- If the attempted steps are those up to `st`, every logged call belongs to one of them. -/
theorem step_of_call_le (log : List (Call α)) (st : Step)
    (h1 : attemptedSteps log = stepOrder.take (st.index + 1))
    (h2 : log.all (fun c => c.step.isSome) = true) :
    ∀ c ∈ log, ∃ st', c.step = some st' ∧ st'.index ≤ st.index := by
  intro c hc
  rw [List.all_eq_true] at h2
  obtain ⟨st', hst'⟩ := Option.isSome_iff_exists.1 (h2 c hc)
  refine ⟨st', hst', index_le_of_mem_take st st' ?_⟩
  rw [← h1, attemptedSteps, List.mem_filter]
  refine ⟨mem_stepOrder st', ?_⟩
  rw [List.any_eq_true]
  exact ⟨c, hc, by simp [hst']⟩

/-- The non-null objects behind the first `k` geometry globals are held. -/
theorem geometry_subset_held (s : State α) (k : Nat) :
    ∀ o ∈ ((s.geometry.take k).filter fun o => o ≠ Obj.com 0), o ∈ s.held := by
  intro o ho
  rw [State.held]
  exact List.mem_append_left _ (List.mem_of_mem_take (List.mem_of_mem_filter ho))

/-- C3. When `InitGeometry` returns false there is a first failing step `st` in the order of
the source, and `gLastError` holds its message (for the meshes the `what()` text of the
exception); every logged call belongs to a step up to `st`, the steps with a call in the log
are exactly those up to `st`, the meshes and textures attempted are those up to and including
the first failing one; no call releases anything, and every object created is still held by
its global. -/
theorem InitGeometry_false (env : Environment) (s : State α)
    (h : (InitGeometry env s).1 = Result.returned false) :
    ∃ st, firstFailure env s.portal.gPortalWidth s.portal.gPortalHeight = some st ∧
      (InitGeometry env s).2.common.gLastError = st.message env ∧
      (∀ c ∈ newCalls s (InitGeometry env s).2, ∃ st', c.step = some st' ∧ st'.index ≤ st.index) ∧
      attemptedSteps (newCalls s (InitGeometry env s).2) = stepOrder.take (st.index + 1) ∧
      (newCalls s (InitGeometry env s).2).filterMap Call.meshFile =
        throughFirst (fun f => (env.NewMesh f).isSome) meshFiles ∧
      (newCalls s (InitGeometry env s).2).filterMap Call.textureFile =
        (if st.index < Step.textures.index then []
         else throughFirst (fun f => !env.LoadTexture f) textureFiles) ∧
      releasedBy (newCalls s (InitGeometry env s).2) = [] ∧
      (∀ o ∈ createdBy (newCalls s (InitGeometry env s).2), o ∈ (InitGeometry env s).2.held) := by
  rcases InitGeometry_outcome env s with ⟨h1, _⟩ | ⟨h1, _⟩ | ⟨_, st, k, r1, r2, r3, r4, r5, r6, r7, r8⟩
  · rw [h1] at h; cases h
  · rw [h1] at h; cases h
  · refine ⟨st, r1, r2, step_of_call_le _ st r3 r4, r3, r5, r6, r7, ?_⟩
    rw [r8]
    exact geometry_subset_held _ k


/-- The state and log of `InitGeometry` when every call succeeds, in closed form. -/
theorem InitGeometry_success (env : Environment) (s : State α)
    (hm : ∀ f ∈ meshFiles, env.NewMesh f = none)
    (hs : env.LoadShaders = true)
    (hb1 : env.CreateConstantBuffer sizeofPerFrameConstants = true)
    (hb2 : env.CreateConstantBuffer sizeofPerModelConstants = true)
    (ht : ∀ f ∈ textureFiles, env.LoadTexture f = true)
    (hp1 : FAILED (env.CreateTexture2D (portalTextureDesc s.portal.gPortalWidth s.portal.gPortalHeight)) = false)
    (hp2 : FAILED env.CreateRenderTargetView = false)
    (hp3 : FAILED env.CreateShaderResourceView = false)
    (hp4 : FAILED (env.CreateTexture2D (portalDepthDesc s.portal.gPortalWidth s.portal.gPortalHeight)) = false)
    (hp5 : FAILED env.CreateDepthStencilView = false)
    (hc : env.CreateStates = true) :
    InitGeometry env s = (Result.returned true,
      { s with
        meshes := ⟨s.nextPtr + 1, s.nextPtr + 2, s.nextPtr + 3, s.nextPtr + 4, s.nextPtr + 5,
          s.nextPtr + 6, s.nextPtr + 7⟩
        shaders := env.loadedShaders
        gPerFrameConstantBuffer := s.nextPtr + 8
        gPerModelConstantBuffer := s.nextPtr + 9
        textures := ⟨s.nextPtr + 10, s.nextPtr + 11, s.nextPtr + 12, s.nextPtr + 13,
          s.nextPtr + 14, s.nextPtr + 15, s.nextPtr + 16, s.nextPtr + 17, s.nextPtr + 18,
          s.nextPtr + 19, s.nextPtr + 20, s.nextPtr + 21, s.nextPtr + 22, s.nextPtr + 23⟩
        portal := ⟨s.portal.gPortalWidth, s.portal.gPortalHeight, s.nextPtr + 24, s.nextPtr + 25,
          s.nextPtr + 26, s.nextPtr + 27, s.nextPtr + 28⟩
        states := env.createdStates
        nextPtr := s.nextPtr + 28
        calls := s.calls ++
          geometryCalls env s.portal.gPortalWidth s.portal.gPortalHeight s.nextPtr }) := by
  simp only [meshFiles, textureFiles, List.forall_mem_cons, List.not_mem_nil, IsEmpty.forall_iff,
    implies_true, and_true] at hm ht
  obtain ⟨hm1, hm2, hm3, hm4, hm5, hm6, hm7⟩ := hm
  obtain ⟨ht1, ht2, ht3, ht4, ht5, ht6, ht7⟩ := ht
  simp only [InitGeometry, loadMeshes, NewMesh, LoadShaders, CreateConstantBuffer, loadTextures, orElse, notCall, LoadTexture, CreateTexture2D, CreateRenderTargetView, CreateShaderResourceView, CreateDepthStencilView, CreateStates, emit, List.append_assoc, List.singleton_append, List.cons_append, List.nil_append, if_true, if_false, Bool.not_true, Bool.not_false, Bool.false_eq_true, reduceCtorEq, or_self, Nat.add_eq_zero, one_ne_zero, and_false, false_and, Nat.add_assoc, Nat.reduceAdd, geometryCalls, *]

/-- When `InitGeometry` returns true, no step failed. -/
theorem InitGeometry_true_conditions (env : Environment) (s : State α)
    (h : (InitGeometry env s).1 = Result.returned true) :
    firstFailure env s.portal.gPortalWidth s.portal.gPortalHeight = none := by
  rcases InitGeometry_outcome env s with ⟨h1, _⟩ | ⟨_, h2, _⟩ | ⟨h1, _⟩
  · rw [h1] at h; cases h
  · exact h2
  · rw [h1] at h; cases h

/-! ## Rendering -/

section Rendering

/-- The state and log of one call of `RenderSceneFromCamera`, in closed form: only the three
camera matrices of `gPerFrameConstants` and two fields of `gPerModelConstants` change. -/
theorem RenderSceneFromCamera_eq (lib : Library α) (cam : Camera α) (s : State α) :
    RenderSceneFromCamera lib cam s =
      { s with
        gPerFrameConstants :=
          { s.gPerFrameConstants with
            viewMatrix := lib.ViewMatrix cam, projectionMatrix := lib.ProjectionMatrix cam,
            viewProjectionMatrix := lib.ViewProjectionMatrix cam }
        gPerModelConstants :=
          { s.gPerModelConstants with
            worldMatrix := lib.WorldMatrix s.models.gLight2,
            objectColour := s.lights.gLight2Colour }
        calls := s.calls ++ passCalls lib cam s } := by
  simp only [RenderSceneFromCamera, emit, Model.Render, passCalls, renderCall,
    List.append_assoc, List.singleton_append, List.cons_append, List.nil_append]

/-- C7. One call of `RenderSceneFromCamera` draws the eight models once each, in the order
ground, crate, teapot, portal, sphere, cube, light 1, light 2: the first six with the
no-blending, depth-buffer and back-face-culling states, the two lights with the additive
blending, read-only depth and no-culling states and with `objectColour` set to
`gLight1Colour` and `gLight2Colour`. -/
theorem RenderSceneFromCamera_draws (lib : Library α) (camera : Camera α) (s : State α)
    (p : Pipeline α) :
    (draws p (callsOf (RenderSceneFromCamera lib camera) s)).map
        (fun d => (d.model, d.mesh, d.pipeline.blendState, d.pipeline.depthStencilState,
          d.pipeline.rasterizerState))
      = [s.models.gGround, s.models.gCrate, s.models.gTeapot, s.models.gPortal,
          s.models.gSphere, s.models.gCube].map (fun m =>
            (m.ptr, m.mesh, s.states.gNoBlendingState, s.states.gUseDepthBufferState,
              s.states.gCullBackState))
        ++ [s.models.gLight1, s.models.gLight2].map (fun m =>
            (m.ptr, m.mesh, s.states.gAdditiveBlendingState, s.states.gDepthReadOnlyState,
              s.states.gCullNoneState))
    ∧ ((draws p (callsOf (RenderSceneFromCamera lib camera) s)).drop 6).map
        (fun d => d.constants.objectColour) = [s.lights.gLight1Colour, s.lights.gLight2Colour] := by
  simp only [callsOf, RenderSceneFromCamera_eq, passCalls, renderCall, List.nil_append]
  simp only [draws, Pipeline.step]
  simp

variable [LinearOrderedField α]

/-- The call `RenderScene` leaves the models, the lights and the statics of `UpdateScene` alone. -/
theorem RenderScene_preserves (lib : Library α) (s : State α) :
    (RenderScene lib s).models = s.models ∧ (RenderScene lib s).lights = s.lights ∧
      (RenderScene lib s).statics = s.statics := by
  simp only [RenderScene, emit, RenderSceneFromCamera_eq, and_self]

/-- C1. One call of `RenderScene` draws the eight models twice: the first eight draws go
to the portal render target and portal depth view with the matrices of `gPortalCamera` in the
per-frame buffer, the last eight to the back buffer and main depth buffer with the matrices
of `gCamera`; the per-frame constants are uploaded twice; `Present` is called once and is the
last call of the frame. -/
theorem RenderScene_two_passes (lib : Library α) (s : State α) (p : Pipeline α) :
    (draws p (callsOf (RenderScene lib) s)).map
        (fun d => (d.model, d.pipeline.renderTarget, d.pipeline.depthStencil,
          d.perFrame.map fun c => (c.viewMatrix, c.projectionMatrix, c.viewProjectionMatrix)))
      = (sceneModels s).map (fun m =>
          (m.ptr, s.portal.gPortalRenderTarget, s.portal.gPortalDepthStencilView,
            some (lib.ViewMatrix s.gPortalCamera, lib.ProjectionMatrix s.gPortalCamera,
              lib.ViewProjectionMatrix s.gPortalCamera)))
        ++ (sceneModels s).map (fun m =>
          (m.ptr, s.common.gBackBufferRenderTarget, s.common.gDepthStencil,
            some (lib.ViewMatrix s.gCamera, lib.ProjectionMatrix s.gCamera,
              lib.ViewProjectionMatrix s.gCamera)))
    ∧ (perFrameUploads (callsOf (RenderScene lib) s)).length = 2
    ∧ ((callsOf (RenderScene lib) s).filter Call.isPresent).length = 1
    ∧ (callsOf (RenderScene lib) s).getLast? = some (Call.Present (if s.lockFPS then 1 else 0)) := by
  simp only [callsOf, RenderScene, emit, RenderSceneFromCamera_eq, passCalls, renderCall,
    List.append_assoc, List.singleton_append, List.cons_append, List.nil_append]
  simp only [draws, Pipeline.step, perFrameUploads]
  simp [Draw.perFrame, sceneModels, bind, Call.isPresent]

/-- C6. In both passes of `RenderScene` every draw finds the bound colour target cleared
to `gBackgroundColor` and the bound depth buffer cleared to 1 since they were bound (the
first draw of a pass is the first draw into them), and the viewport at the origin with depth
range 0 to 1 and the size of the pass: the portal size in the first pass, the window size in
the second. -/
theorem RenderScene_targets_cleared (lib : Library α) (s : State α) (p : Pipeline α) :
    (draws p (callsOf (RenderScene lib) s)).map
        (fun d => (d.pipeline.renderTarget, d.pipeline.depthStencil, d.pipeline.colourCleared,
          d.pipeline.depthCleared, d.pipeline.drawsSinceBind, d.pipeline.viewport))
      = (List.range 8).map (fun i =>
          (s.portal.gPortalRenderTarget, s.portal.gPortalDepthStencilView,
            some s.lights.gBackgroundColor, some 1, i,
            D3D11_VIEWPORT.mk 0 0 (s.portal.gPortalWidth : α) (s.portal.gPortalHeight : α) 0 1))
        ++ (List.range 8).map (fun i =>
          (s.common.gBackBufferRenderTarget, s.common.gDepthStencil,
            some s.lights.gBackgroundColor, some 1, i,
            D3D11_VIEWPORT.mk 0 0 (s.common.gViewportWidth : α) (s.common.gViewportHeight : α)
              0 1)) := by
  have h0 : (0.0 : α) = 0 := by norm_num
  have h1 : (1.0 : α) = 1 := by norm_num
  simp only [callsOf, RenderScene, emit, RenderSceneFromCamera_eq, passCalls, renderCall,
    List.append_assoc, List.singleton_append, List.cons_append, List.nil_append]
  simp only [draws, Pipeline.step]
  simp [List.range, List.range.loop, h0, h1]

/-- C8. `RenderSceneFromCamera` changes `gPerFrameConstants` in its three camera matrices
only, so both uploads of one `RenderScene` call carry the same light, ambient and specular
fields and the position of `gCamera` as `cameraPosition`; they differ in the camera matrices,
which are those of `gPortalCamera` in the first upload and of `gCamera` in the second. -/
theorem RenderSceneFromCamera_perFrame (lib : Library α) (camera : Camera α) (s : State α) :
    (RenderSceneFromCamera lib camera s).gPerFrameConstants =
      { s.gPerFrameConstants with
        viewMatrix := lib.ViewMatrix camera, projectionMatrix := lib.ProjectionMatrix camera,
        viewProjectionMatrix := lib.ViewProjectionMatrix camera }
    ∧ perFrameUploads (callsOf (RenderScene lib) s) =
      [s.gPortalCamera, s.gCamera].map (fun camera =>
        { s.gPerFrameConstants with
          viewMatrix := lib.ViewMatrix camera, projectionMatrix := lib.ProjectionMatrix camera,
          viewProjectionMatrix := lib.ViewProjectionMatrix camera,
          light1Colour := s.lights.gLight1Colour.mul s.lights.gLight1Strength,
          light1Position := s.models.gLight1.position,
          light2Colour := s.lights.gLight2Colour.mul s.lights.gLight2Strength,
          light2Strength := s.lights.gLight2Strength,
          light2Position := s.models.gLight2.position,
          ambientColour := s.lights.gAmbientColour,
          specularPower := s.lights.gSpecularPower,
          cameraPosition := s.gCamera.position }) := by
  constructor
  · rw [RenderSceneFromCamera_eq]
  · simp only [callsOf, RenderScene, emit, RenderSceneFromCamera_eq, passCalls, renderCall,
      List.append_assoc, List.singleton_append, List.cons_append, List.nil_append]
    simp [perFrameUploads]

end Rendering

/-! ## The portal texture at the portal draw -/

/-- Replaying a log in two parts. -/
theorem Pipeline.run_append (p : Pipeline α) (l m : List (Call α)) :
    p.run (l ++ m) = (p.run l).run m := by
  induction l generalizing p with
  | nil => rfl
  | cons c cs ih => exact ih (p.step c)

/-- A call that creates no view leaves the table of views alone. -/
theorem Pipeline.step_resourceOf (p : Pipeline α) (c : Call α) (h : c.createsView = false) :
    (p.step c).resourceOf = p.resourceOf := by
  cases c <;> simp [Call.createsView] at h <;>
    first
    | rfl
    | (simp only [Pipeline.step]; split_ifs <;> rfl)

/-- A log that creates no view leaves the table of views alone. -/
theorem Pipeline.run_resourceOf (p : Pipeline α) (l : List (Call α))
    (h : ∀ c ∈ l, c.createsView = false) : (p.run l).resourceOf = p.resourceOf := by
  induction l generalizing p with
  | nil => rfl
  | cons c cs ih =>
    rw [Pipeline.run, ih _ fun c hc => h c (List.mem_cons_of_mem _ hc)]
    exact Pipeline.step_resourceOf p c (h c (List.mem_cons_self _ _))

/-- The call `InitScene` leaves the portal globals and the globals of other files alone and
creates no view. -/
theorem InitScene_device [Field α] (lib : Library α) (cameraDefaults : Camera α) (s : State α) :
    (InitScene lib cameraDefaults s).2.portal = s.portal ∧
    (InitScene lib cameraDefaults s).2.common = s.common ∧
    ∃ l, (InitScene lib cameraDefaults s).2.calls = s.calls ++ l ∧
      ∀ c ∈ l, c.createsView = false := by
  simp only [InitScene, NewModel, NewCamera, emit, List.append_assoc, List.singleton_append,
    List.cons_append, List.nil_append]
  refine ⟨trivial, trivial, _, rfl, ?_⟩
  simp [Call.createsView]

/-- The draws of one `RenderSceneFromCamera` call on any device context: the view requested
for pixel-shader slot 0 at each draw. -/
theorem RenderSceneFromCamera_requested (lib : Library α) (camera : Camera α) (s : State α)
    (p : Pipeline α) :
    (draws p (callsOf (RenderSceneFromCamera lib camera) s)).map
        (fun d => (d.model, d.pipeline.psRequested 0))
      = [(s.models.gGround.ptr, s.textures.gGroundDiffuseSpecularMapSRV),
         (s.models.gCrate.ptr, s.textures.gCrateDiffuseSpecularMapSRV),
         (s.models.gTeapot.ptr, s.textures.gTeapotDiffuseSpecularMapSRV),
         (s.models.gPortal.ptr, s.portal.gPortalTextureSRV),
         (s.models.gSphere.ptr, s.textures.gSphereDiffuseSpecularMapSRV),
         (s.models.gCube.ptr, s.textures.gCubeStoneDiffuseSpecularMapSRV),
         (s.models.gLight1.ptr, s.textures.gLightDiffuseMapSRV),
         (s.models.gLight2.ptr, s.textures.gLightDiffuseMapSRV)] := by
  simp only [callsOf, RenderSceneFromCamera_eq, passCalls, renderCall, List.nil_append]
  simp only [draws, Pipeline.step]
  simp [bind]

section Device

variable [LinearOrderedField α]

/-- The call `RenderScene` appends its calls to the log, leaves the portal globals and the
globals of other files alone and creates no view. -/
theorem RenderScene_device (lib : Library α) (s : State α) :
    (RenderScene lib s).portal = s.portal ∧ (RenderScene lib s).common = s.common ∧
    ∃ l, (RenderScene lib s).calls = s.calls ++ l ∧ ∀ c ∈ l, c.createsView = false := by
  simp only [RenderScene, emit, RenderSceneFromCamera_eq, passCalls, renderCall,
    List.append_assoc, List.singleton_append, List.cons_append, List.nil_append]
  refine ⟨trivial, trivial, _, rfl, ?_⟩
  simp [Call.createsView]

/-- The call `UpdateScene` leaves the portal globals and the globals of other files alone and
creates no view. -/
theorem UpdateScene_device (lib : Library α) (keys : Keys α) (t : α) (s : State α) :
    (UpdateScene lib keys t s).portal = s.portal ∧ (UpdateScene lib keys t s).common = s.common ∧
    ∃ l, (UpdateScene lib keys t s).calls = s.calls ++ l ∧ ∀ c ∈ l, c.createsView = false := by
  simp only [UpdateScene, emit]
  split_ifs <;>
    first
    | exact ⟨rfl, rfl, [], (List.append_nil _).symm, by simp⟩
    | exact ⟨rfl, rfl, [_], rfl, by simp [Call.createsView]⟩

/-- A run of frame steps leaves the portal globals and the globals of other files alone and
creates no view. -/
theorem runFrames_device (lib : Library α) (frames : List (Frame α)) (s : State α) :
    (runFrames lib frames s).portal = s.portal ∧ (runFrames lib frames s).common = s.common ∧
    ∃ l, (runFrames lib frames s).calls = s.calls ++ l ∧ ∀ c ∈ l, c.createsView = false := by
  induction frames generalizing s with
  | nil => exact ⟨rfl, rfl, [], (List.append_nil _).symm, by simp⟩
  | cons f fs ih =>
    cases f with
    | update keys t =>
      obtain ⟨h1, h2, l, h3, h4⟩ := UpdateScene_device lib keys t s
      obtain ⟨i1, i2, m, i3, i4⟩ := ih (UpdateScene lib keys t s)
      refine ⟨i1.trans h1, i2.trans h2, l ++ m, ?_, ?_⟩
      · rw [runFrames, i3, h3, List.append_assoc]
      · intro c hc
        rcases List.mem_append.1 hc with hc | hc
        · exact h4 c hc
        · exact i4 c hc
    | render =>
      obtain ⟨h1, h2, l, h3, h4⟩ := RenderScene_device lib s
      obtain ⟨i1, i2, m, i3, i4⟩ := ih (RenderScene lib s)
      refine ⟨i1.trans h1, i2.trans h2, l ++ m, ?_, ?_⟩
      · rw [runFrames, i3, h3, List.append_assoc]
      · intro c hc
        rcases List.mem_append.1 hc with hc | hc
        · exact h4 c hc
        · exact i4 c hc

/-- The draws of one `RenderScene` call on any device context: the models drawn, and at the
portal draw of each pass the render target, the view requested for pixel-shader slot 0 and
the view the slot holds. -/
theorem RenderScene_slotZero (lib : Library α) (s : State α) (p : Pipeline α) :
    (draws p (callsOf (RenderScene lib) s)).map (fun d => d.model) =
      (sceneModels s ++ sceneModels s).map Model.ptr ∧
    ((draws p (callsOf (RenderScene lib) s)).map Draw.slotZero)[3]? =
      some (s.models.gPortal.ptr, s.portal.gPortalRenderTarget, s.portal.gPortalTextureSRV,
        inputView p.resourceOf s.portal.gPortalRenderTarget s.portal.gPortalDepthStencilView
          s.portal.gPortalTextureSRV) ∧
    ((draws p (callsOf (RenderScene lib) s)).map Draw.slotZero)[11]? =
      some (s.models.gPortal.ptr, s.common.gBackBufferRenderTarget, s.portal.gPortalTextureSRV,
        inputView p.resourceOf s.common.gBackBufferRenderTarget s.common.gDepthStencil
          s.portal.gPortalTextureSRV) := by
  simp only [callsOf, RenderScene, emit, RenderSceneFromCamera_eq, passCalls, renderCall,
    List.append_assoc, List.singleton_append, List.cons_append, List.nil_append]
  simp only [draws, Pipeline.step]
  simp [Draw.slotZero, sceneModels, bind]

end Device

/-- The views that the device knows after a successful `InitGeometry` from allocation counter
`n`: the portal render target and the portal shader resource view are views of the portal
texture, and the views of older objects are as before. -/
theorem geometryCalls_resourceOf (env : Environment) (w h : Int) (n : Nat) (p : Pipeline α) :
    (p.run (geometryCalls env w h n)).resourceOf (n + 25) = some (n + 24) ∧
    (p.run (geometryCalls env w h n)).resourceOf (n + 26) = some (n + 24) ∧
    (p.run (geometryCalls env w h n)).resourceOf (n + 28) = some (n + 27) ∧
    ∀ v, v ≤ n → (p.run (geometryCalls env w h n)).resourceOf v = p.resourceOf v := by
  simp only [geometryCalls, Pipeline.run, Pipeline.step]
  refine ⟨by simp [learnLoaded, learnView, bind], by simp [learnLoaded, learnView, bind],
    by simp [learnLoaded, learnView, bind], ?_⟩
  intro v hv
  have hne : ∀ k, v = n + (k + 1) ↔ False := fun k => ⟨fun hk => by omega, False.elim⟩
  simp [learnLoaded, learnView, bind, hne]

/-- The portal globals, the globals of other files and the views known to the device in the
running program, after a successful `InitGeometry` from allocation counter `n`. -/
theorem running_device [LinearOrderedField α] (env : Environment) (lib : Library α)
    (cameraDefaults : Camera α) (frames : List (Frame α)) (s : State α) (p : Pipeline α)
    (h : (InitGeometry env s).1 = Result.returned true) :
    (running env lib cameraDefaults frames s).portal =
      ⟨s.portal.gPortalWidth, s.portal.gPortalHeight, s.nextPtr + 24, s.nextPtr + 25,
        s.nextPtr + 26, s.nextPtr + 27, s.nextPtr + 28⟩ ∧
    (running env lib cameraDefaults frames s).common = s.common ∧
    (p.run (newCalls s (running env lib cameraDefaults frames s))).resourceOf =
      (p.run (geometryCalls env s.portal.gPortalWidth s.portal.gPortalHeight
        s.nextPtr)).resourceOf := by
  have hc := (firstFailure_eq_none env _ _).1 (InitGeometry_true_conditions env s h)
  obtain ⟨hm, hs, hb1, hb2, ht, hp1, hp2, hp3, hp4, hp5, hc⟩ := hc
  have hg := InitGeometry_success env s hm hs hb1 hb2 ht hp1 hp2 hp3 hp4 hp5 hc
  obtain ⟨i1, i2, l, i3, i4⟩ := InitScene_device lib cameraDefaults (InitGeometry env s).2
  obtain ⟨r1, r2, m, r3, r4⟩ := runFrames_device lib frames (initialised env lib cameraDefaults s)
  simp only [running, newCalls]
  rw [r1, r2, r3]
  simp only [initialised]
  rw [i1, i2, i3, hg]
  refine ⟨rfl, rfl, ?_⟩
  simp only [List.append_assoc, List.drop_left]
  rw [Pipeline.run_append, Pipeline.run_resourceOf]
  intro c hc
  rcases List.mem_append.1 hc with hc | hc
  · exact i4 c hc
  · exact r4 c hc

/-- C4. After a successful `InitGeometry`, `InitScene` and any steps of the main loop, with
the back buffer and depth buffer views and the resources known to the device older than the
objects of `InitGeometry`: the next `RenderScene` call draws the portal model as its 4th and
12th draw.  At both, the view last passed to `PSSetShaderResources` for slot 0 is
`gPortalTextureSRV`, a non-null view of `gPortalTexture`, the texture behind
`gPortalRenderTarget`, which is the render target of the 4th draw.  At the 12th draw (main
pass) slot 0 holds `gPortalTextureSRV`; at the 4th (portal pass) Direct3D has put NULL in
slot 0, the texture being bound for output.  In every call of `RenderSceneFromCamera`, on any
state and device, `gPortalTextureSRV` is the view requested for slot 0 at the portal draw. -/
theorem portal_draw_texture [LinearOrderedField α] (env : Environment) (lib : Library α)
    (cameraDefaults : Camera α) (frames : List (Frame α)) (s : State α) (p : Pipeline α)
    (h : (InitGeometry env s).1 = Result.returned true)
    (hb : s.common.gBackBufferRenderTarget ≤ s.nextPtr)
    (hd : s.common.gDepthStencil ≤ s.nextPtr)
    (hp : ∀ v r, p.resourceOf v = some r → r ≤ s.nextPtr) :
    (nextFrameDraws env lib cameraDefaults frames s p).map (fun d => d.model) =
      (sceneModels (running env lib cameraDefaults frames s) ++
        sceneModels (running env lib cameraDefaults frames s)).map Model.ptr ∧
    ((nextFrameDraws env lib cameraDefaults frames s p).map Draw.slotZero)[3]? =
      some ((running env lib cameraDefaults frames s).models.gPortal.ptr,
        (running env lib cameraDefaults frames s).portal.gPortalRenderTarget,
        (running env lib cameraDefaults frames s).portal.gPortalTextureSRV, 0) ∧
    ((nextFrameDraws env lib cameraDefaults frames s p).map Draw.slotZero)[11]? =
      some ((running env lib cameraDefaults frames s).models.gPortal.ptr,
        (running env lib cameraDefaults frames s).common.gBackBufferRenderTarget,
        (running env lib cameraDefaults frames s).portal.gPortalTextureSRV,
        (running env lib cameraDefaults frames s).portal.gPortalTextureSRV) ∧
    (p.run (newCalls s (running env lib cameraDefaults frames s))).resourceOf
        (running env lib cameraDefaults frames s).portal.gPortalTextureSRV =
      some (running env lib cameraDefaults frames s).portal.gPortalTexture ∧
    (p.run (newCalls s (running env lib cameraDefaults frames s))).resourceOf
        (running env lib cameraDefaults frames s).portal.gPortalRenderTarget =
      some (running env lib cameraDefaults frames s).portal.gPortalTexture ∧
    (running env lib cameraDefaults frames s).portal.gPortalTextureSRV ≠ 0 ∧
    ∀ (camera : Camera α) (s' : State α) (p' : Pipeline α),
      ((draws p' (callsOf (RenderSceneFromCamera lib camera) s')).map
        (fun d => (d.model, d.pipeline.psRequested 0)))[3]? =
          some (s'.models.gPortal.ptr, s'.portal.gPortalTextureSRV) := by
  obtain ⟨h1, h2, h3⟩ := running_device env lib cameraDefaults frames s p h
  obtain ⟨g1, g2, g3, g4⟩ := geometryCalls_resourceOf env s.portal.gPortalWidth
    s.portal.gPortalHeight s.nextPtr p
  obtain ⟨d1, d2, d3⟩ := RenderScene_slotZero lib (running env lib cameraDefaults frames s)
    (p.run (newCalls s (running env lib cameraDefaults frames s)))
  have hold : ∀ v, v ≤ s.nextPtr → p.resourceOf v ≠ some (s.nextPtr + 24) := by
    intro v _ hv
    have hle : s.nextPtr + 24 ≤ s.nextPtr := hp v _ hv
    omega
  have hnull : inputView (p.run (newCalls s (running env lib cameraDefaults frames s))).resourceOf
      (s.nextPtr + 25) (s.nextPtr + 28) (s.nextPtr + 26) = 0 := by
    simp [inputView, viewsOutput, h3, g1, g2]
  have hkept : inputView (p.run (newCalls s (running env lib cameraDefaults frames s))).resourceOf
      s.common.gBackBufferRenderTarget s.common.gDepthStencil (s.nextPtr + 26) =
        s.nextPtr + 26 := by
    simp [inputView, viewsOutput, h3, g2, g4 _ hb, g4 _ hd, hold _ hb, hold _ hd]
  refine ⟨d1, ?_, ?_, ?_, ?_, ?_, ?_⟩
  · rw [nextFrameDraws, d2, h1]
    simp only [hnull]
  · rw [nextFrameDraws, d3, h1, h2]
    simp only [hkept]
  · rw [h3, h1]; exact g2
  · rw [h3, h1]; exact g1
  · rw [h1]; exact Nat.succ_ne_zero _
  · intro camera s' p'
    rw [RenderSceneFromCamera_requested]
    rfl

/-! ## Release -/

/-- Releasing a non-null interface pointer logs the release. -/
theorem Release_add (n k : Nat) (s : State α) :
    Release (n + (k + 1)) s = emit (Call.Release (n + (k + 1))) s := by
  simp [Release]

/-- Deleting a non-null camera logs the deletion. -/
theorem deleteCamera_add (n k : Nat) (s : State α) :
    deleteCamera (n + (k + 1)) s = emit (Call.DeleteCamera (n + (k + 1))) s := by
  simp [deleteCamera]

/-- Deleting a non-null model logs the deletion. -/
theorem deleteModel_add (n k : Nat) (s : State α) :
    deleteModel (n + (k + 1)) s = emit (Call.DeleteModel (n + (k + 1))) s := by
  simp [deleteModel]

/-- Deleting a non-null mesh logs the deletion. -/
theorem deleteMesh_add (n k : Nat) (s : State α) :
    deleteMesh (n + (k + 1)) s = emit (Call.DeleteMesh (n + (k + 1))) s := by
  simp [deleteMesh]

/-- Moving addresses up keeps distinct objects distinct. -/
theorem Obj.shift_injective (n : Nat) : Function.Injective (Obj.shift n) := by
  intro a b h
  cases a <;> cases b <;> simp [Obj.shift] at h ⊢ <;> exact h

/-- The release order lists the objects of the creation order. -/
theorem releaseOffsets_perm : releaseOffsets.Perm heldOffsets := by decide

/-- The objects of the creation order are distinct. -/
theorem heldOffsets_nodup : heldOffsets.Nodup := by decide

set_option maxHeartbeats 2000000 in
set_option maxRecDepth 8000 in
/-- After a successful `InitGeometry` and `InitScene`: what was created, what the globals
hold, and what `ReleaseResources` releases and leaves, in closed form. -/
theorem initialised_success [Field α] (env : Environment) (lib : Library α)
    (cameraDefaults : Camera α) (s : State α)
    (h : (InitGeometry env s).1 = Result.returned true) :
    createdBy (newCalls s (initialised env lib cameraDefaults s)) =
        (initialised env lib cameraDefaults s).held ∧
      (initialised env lib cameraDefaults s).held = heldOffsets.map (Obj.shift s.nextPtr) ∧
      releasedBy (newCalls (initialised env lib cameraDefaults s)
          (ReleaseResources (initialised env lib cameraDefaults s))) =
        (initialised env lib cameraDefaults s).releaseOrder ∧
      (initialised env lib cameraDefaults s).releaseOrder =
        releaseOffsets.map (Obj.shift s.nextPtr) ∧
      (ReleaseResources (initialised env lib cameraDefaults s)).meshes = ⟨0, 0, 0, 0, 0, 0, 0⟩ ∧
      (sceneModels (ReleaseResources (initialised env lib cameraDefaults s))).map Model.ptr =
        [0, 0, 0, 0, 0, 0, 0, 0] ∧
      (ReleaseResources (initialised env lib cameraDefaults s)).gCamera.ptr = 0 ∧
      (ReleaseResources (initialised env lib cameraDefaults s)).gPortalCamera.ptr = 0 := by
  have hc := (firstFailure_eq_none env _ _).1 (InitGeometry_true_conditions env s h)
  obtain ⟨hm, hs, hb1, hb2, ht, hp1, hp2, hp3, hp4, hp5, hc⟩ := hc
  simp only [initialised, InitGeometry_success env s hm hs hb1 hb2 ht hp1 hp2 hp3 hp4 hp5 hc]
  simp only [InitScene, NewModel, NewCamera, emit, geometryCalls, List.append_assoc,
    List.singleton_append, List.cons_append, List.nil_append, Nat.add_assoc, Nat.reduceAdd]
  simp only [ReleaseResources, Release_add, deleteCamera_add, deleteModel_add, deleteMesh_add,
    emit, List.append_assoc, List.singleton_append, List.cons_append, List.nil_append,
    Nat.reduceAdd]
  simp only [newCalls, List.drop_left]
  simp [createdBy, releasedBy, Call.created, Call.released, State.held, State.geometry,
    State.scene, State.releaseOrder, heldOffsets, releaseOffsets, Obj.shift, sceneModels, hs, hc,
    hp1, hp2, hp3, hp4, hp5]

/-- C5. After a successful `InitGeometry` followed by `InitScene`, the objects created are the
objects the globals hold, all distinct; `ReleaseResources` releases the objects of
`State.releaseOrder` (the states, 5 portal objects, 14 texture resources and views, 2 constant
buffers, the shaders, 2 cameras, 8 models and 7 meshes: 40 in all), which is a rearrangement
of the objects created, so each is released exactly once and none is left out; afterwards
every mesh, model and camera pointer is null. -/
theorem ReleaseResources_releases_created [Field α] (env : Environment) (lib : Library α)
    (cameraDefaults : Camera α) (s : State α)
    (h : (InitGeometry env s).1 = Result.returned true) :
    (InitScene lib cameraDefaults (InitGeometry env s).2).1 = true ∧
    createdBy (newCalls s (initialised env lib cameraDefaults s)) =
      (initialised env lib cameraDefaults s).held ∧
    releasedBy (newCalls (initialised env lib cameraDefaults s)
        (ReleaseResources (initialised env lib cameraDefaults s))) =
      (initialised env lib cameraDefaults s).releaseOrder ∧
    (releasedBy (newCalls (initialised env lib cameraDefaults s)
        (ReleaseResources (initialised env lib cameraDefaults s)))).Perm
      (createdBy (newCalls s (initialised env lib cameraDefaults s))) ∧
    (createdBy (newCalls s (initialised env lib cameraDefaults s))).Nodup ∧
    (releasedBy (newCalls (initialised env lib cameraDefaults s)
        (ReleaseResources (initialised env lib cameraDefaults s)))).Nodup ∧
    (releasedBy (newCalls (initialised env lib cameraDefaults s)
        (ReleaseResources (initialised env lib cameraDefaults s)))).length = 40 ∧
    (ReleaseResources (initialised env lib cameraDefaults s)).meshes = ⟨0, 0, 0, 0, 0, 0, 0⟩ ∧
    (sceneModels (ReleaseResources (initialised env lib cameraDefaults s))).map Model.ptr =
      [0, 0, 0, 0, 0, 0, 0, 0] ∧
    (ReleaseResources (initialised env lib cameraDefaults s)).gCamera.ptr = 0 ∧
    (ReleaseResources (initialised env lib cameraDefaults s)).gPortalCamera.ptr = 0 := by
  obtain ⟨h1, h2, h3, h4, h5, h6, h7, h8⟩ := initialised_success env lib cameraDefaults s h
  have hperm : (releasedBy (newCalls (initialised env lib cameraDefaults s)
      (ReleaseResources (initialised env lib cameraDefaults s)))).Perm
      (createdBy (newCalls s (initialised env lib cameraDefaults s))) := by
    rw [h1, h2, h3, h4]
    exact releaseOffsets_perm.map _
  have hnodup : (createdBy (newCalls s (initialised env lib cameraDefaults s))).Nodup := by
    rw [h1, h2]
    exact heldOffsets_nodup.map (Obj.shift_injective _)
  refine ⟨rfl, h1, h3, hperm, hnodup, hperm.nodup_iff.2 hnodup, ?_, h5, h6, h7, h8⟩
  rw [h3, State.releaseOrder]
  rfl

/-! ## Update -/

section Update

variable [LinearOrderedField α]

/-- The fields of the state that one call of `UpdateScene` leaves alone or sets, in closed
form. -/
theorem UpdateScene_fields (lib : Library α) (keys : Keys α) (t : α) (s : State α) :
    (UpdateScene lib keys t s).statics.rotate = s.statics.rotate - gLightOrbitSpeed * t ∧
    (UpdateScene lib keys t s).statics.effectTime = s.statics.effectTime + t ∧
    (UpdateScene lib keys t s).models.gCube = s.models.gCube ∧
    (UpdateScene lib keys t s).models.gLight1.position =
      s.models.gCube.position.add
        ⟨lib.cos s.statics.rotate * gLightOrbit, 0.0, lib.sin s.statics.rotate * gLightOrbit⟩ ∧
    (UpdateScene lib keys t s).lights.gLight2MinStrength = s.lights.gLight2MinStrength ∧
    (UpdateScene lib keys t s).lights.gLight2MaxStrength = s.lights.gLight2MaxStrength ∧
    (UpdateScene lib keys t s).lights.gLight2PulseSpeed = s.lights.gLight2PulseSpeed ∧
    (UpdateScene lib keys t s).lights.gLight2Strength =
      s.lights.gLight2MinStrength +
        (s.lights.gLight2MaxStrength - s.lights.gLight2MinStrength) *
          (0.5 + 0.5 * lib.sinf ((s.statics.effectTime + t) * s.lights.gLight2PulseSpeed)) := by
  simp only [UpdateScene, emit]
  split_ifs <;> simp

/-- The fields that a run of frame steps carries along: the orbit angle and the effect time
accumulate the frame times; the cube and the pulse parameters stay. -/
theorem runFrames_fields (lib : Library α) (frames : List (Frame α)) (s : State α) :
    (runFrames lib frames s).statics.rotate =
      s.statics.rotate - gLightOrbitSpeed * (frameTimes frames).sum ∧
    (runFrames lib frames s).statics.effectTime =
      s.statics.effectTime + (frameTimes frames).sum ∧
    (runFrames lib frames s).models.gCube = s.models.gCube ∧
    (runFrames lib frames s).lights.gLight2MinStrength = s.lights.gLight2MinStrength ∧
    (runFrames lib frames s).lights.gLight2MaxStrength = s.lights.gLight2MaxStrength ∧
    (runFrames lib frames s).lights.gLight2PulseSpeed = s.lights.gLight2PulseSpeed := by
  induction frames generalizing s with
  | nil => simp [runFrames, frameTimes]
  | cons f fs ih =>
    cases f with
    | update keys t =>
      obtain ⟨h1, h2, h3, _, h5, h6, h7, _⟩ := UpdateScene_fields lib keys t s
      obtain ⟨i1, i2, i3, i4, i5, i6⟩ := ih (UpdateScene lib keys t s)
      simp only [runFrames, frameTimes, List.sum_cons]
      rw [i1, i2, i3, i4, i5, i6, h1, h2, h3, h5, h6, h7]
      refine ⟨by ring, by ring, rfl, rfl, rfl, rfl⟩
    | render =>
      obtain ⟨h1, h2, h3⟩ := RenderScene_preserves lib s
      obtain ⟨i1, i2, i3, i4, i5, i6⟩ := ih (RenderScene lib s)
      simp only [runFrames, frameTimes]
      rw [i1, i2, i3, i4, i5, i6, h1, h2, h3]
      exact ⟨rfl, rfl, rfl, rfl, rfl, rfl⟩

end Update

/-- C9. Over the reals, with `sinf` the real sine: after every call of `UpdateScene`,
whatever frame steps came before it, `gLight2Strength` equals
`min + (max - min) * (0.5 + 0.5 * sin (effectTime * gLight2PulseSpeed))` with the pulse factor
between 0 and 1, so it lies between `gLight2MinStrength` and `gLight2MaxStrength`, which the
run leaves at their initial values 0 and 7; `effectTime` is the sum of the frame times. -/
theorem UpdateScene_light2_strength (lib : Library ℝ) (hsinf : lib.sinf = Real.sin)
    (frames : List (Frame ℝ)) (keys : Keys ℝ) (t : ℝ) (s : State ℝ)
    (hmin : s.lights.gLight2MinStrength = 0) (hmax : s.lights.gLight2MaxStrength = 7) :
    (UpdateScene lib keys t (runFrames lib frames s)).lights.gLight2MinStrength = 0 ∧
    (UpdateScene lib keys t (runFrames lib frames s)).lights.gLight2MaxStrength = 7 ∧
    (UpdateScene lib keys t (runFrames lib frames s)).statics.effectTime =
      s.statics.effectTime + ((frameTimes frames).sum + t) ∧
    0 ≤ 0.5 + 0.5 * Real.sin
        ((UpdateScene lib keys t (runFrames lib frames s)).statics.effectTime *
          (UpdateScene lib keys t (runFrames lib frames s)).lights.gLight2PulseSpeed) ∧
    0.5 + 0.5 * Real.sin
        ((UpdateScene lib keys t (runFrames lib frames s)).statics.effectTime *
          (UpdateScene lib keys t (runFrames lib frames s)).lights.gLight2PulseSpeed) ≤ 1 ∧
    (UpdateScene lib keys t (runFrames lib frames s)).lights.gLight2Strength =
      (UpdateScene lib keys t (runFrames lib frames s)).lights.gLight2MinStrength +
        ((UpdateScene lib keys t (runFrames lib frames s)).lights.gLight2MaxStrength -
          (UpdateScene lib keys t (runFrames lib frames s)).lights.gLight2MinStrength) *
        (0.5 + 0.5 * Real.sin
          ((UpdateScene lib keys t (runFrames lib frames s)).statics.effectTime *
            (UpdateScene lib keys t (runFrames lib frames s)).lights.gLight2PulseSpeed)) ∧
    0 ≤ (UpdateScene lib keys t (runFrames lib frames s)).lights.gLight2Strength ∧
    (UpdateScene lib keys t (runFrames lib frames s)).lights.gLight2Strength ≤ 7 := by
  obtain ⟨_, h2, _, _, h5, h6, h7, h8⟩ := UpdateScene_fields lib keys t (runFrames lib frames s)
  obtain ⟨_, i2, _, i4, i5, i6⟩ := runFrames_fields lib frames s
  rw [h2, h5, h6, h7, h8, i2, i4, i5, i6, hmin, hmax, hsinf]
  have hlo := Real.neg_one_le_sin ((s.statics.effectTime + (frameTimes frames).sum + t) *
    s.lights.gLight2PulseSpeed)
  have hhi := Real.sin_le_one ((s.statics.effectTime + (frameTimes frames).sum + t) *
    s.lights.gLight2PulseSpeed)
  refine ⟨rfl, rfl, by ring, ?_, ?_, rfl, ?_, ?_⟩ <;> norm_num <;> linarith

/-- C10. Over the reals, with `cos` and `sin` the real cosine and sine, and the orbit
angle starting at 0: after the call of `UpdateScene` that follows the frame steps `frames`,
light 1 is at the cube's position plus `(gLightOrbit * cos a, 0, gLightOrbit * sin a)` with
`a = -gLightOrbitSpeed * (sum of the earlier frame times)`; it is at the cube's height and at
horizontal distance `gLightOrbit = 20` from it. -/
theorem UpdateScene_light1_orbit (lib : Library ℝ) (hcos : lib.cos = Real.cos)
    (hsin : lib.sin = Real.sin) (frames : List (Frame ℝ)) (keys : Keys ℝ) (t : ℝ) (s : State ℝ)
    (hrotate : s.statics.rotate = 0) :
    (UpdateScene lib keys t (runFrames lib frames s)).models.gLight1.position =
      (UpdateScene lib keys t (runFrames lib frames s)).models.gCube.position.add
        ⟨gLightOrbit * Real.cos (-gLightOrbitSpeed * (frameTimes frames).sum), 0,
         gLightOrbit * Real.sin (-gLightOrbitSpeed * (frameTimes frames).sum)⟩ ∧
    (UpdateScene lib keys t (runFrames lib frames s)).models.gLight1.position.y =
      (UpdateScene lib keys t (runFrames lib frames s)).models.gCube.position.y ∧
    Real.sqrt
      (((UpdateScene lib keys t (runFrames lib frames s)).models.gLight1.position.x -
          (UpdateScene lib keys t (runFrames lib frames s)).models.gCube.position.x) ^ 2 +
        ((UpdateScene lib keys t (runFrames lib frames s)).models.gLight1.position.z -
          (UpdateScene lib keys t (runFrames lib frames s)).models.gCube.position.z) ^ 2) = 20 ∧
    (gLightOrbit : ℝ) = 20 ∧ (gLightOrbitSpeed : ℝ) = 7 / 10 := by
  obtain ⟨_, _, h3, h4, _⟩ := UpdateScene_fields lib keys t (runFrames lib frames s)
  obtain ⟨i1, _, i3, _⟩ := runFrames_fields lib frames s
  have ha : (runFrames lib frames s).statics.rotate =
      -gLightOrbitSpeed * (frameTimes frames).sum := by rw [i1, hrotate]; ring
  have h20 : (gLightOrbit : ℝ) = 20 := by norm_num [gLightOrbit]
  rw [h3, h4, ha, hcos, hsin]
  refine ⟨?_, ?_, ?_, h20, by norm_num [gLightOrbitSpeed]⟩
  · simp only [CVector3.add, CVector3.mk.injEq]
    refine ⟨by ring, by norm_num, by ring⟩
  · norm_num [CVector3.add]
  · simp only [CVector3.add, add_sub_cancel_left, h20]
    have hcs := Real.cos_sq_add_sin_sq (-gLightOrbitSpeed * (frameTimes frames).sum)
    have : (Real.cos (-gLightOrbitSpeed * (frameTimes frames).sum) * 20) ^ 2 +
        (Real.sin (-gLightOrbitSpeed * (frameTimes frames).sum) * 20) ^ 2 = 20 ^ 2 := by
      nlinarith [hcs]
    rw [this]
    exact Real.sqrt_sq (by norm_num)

/-! ## Instances -/

/-- In the environment in which every call succeeds, `InitGeometry` returns true. -/
theorem allSucceed_returns_true (s : State α) :
    (InitGeometry Environment.allSucceed s).1 = Result.returned true := by
  rw [InitGeometry_success Environment.allSucceed s (fun _ _ => rfl) rfl rfl rfl
    (fun _ _ => rfl) rfl rfl rfl rfl rfl rfl]

/-- With the third texture file missing, `InitGeometry` returns false. -/
theorem missingTexture_returns_false (s : State α) :
    (InitGeometry (Environment.missingTexture "WoodDiffuseSpecular.dds") s).1 =
      Result.returned false := by
  simp [InitGeometry, loadMeshes, NewMesh, LoadShaders, CreateConstantBuffer, loadTextures,
    orElse, notCall, LoadTexture, emit, Environment.missingTexture, Environment.allSucceed]

/-- Instance of C2: from the initial state, with every call succeeding, `InitGeometry`
returns true and `gLastError` stays empty. -/
theorem InitGeometry_true_iff_witness :
    (InitGeometry Environment.allSucceed (State.initial Common.sample : State ℚ)).1 =
        Result.returned true ∧
      (InitGeometry Environment.allSucceed
        (State.initial Common.sample : State ℚ)).2.common.gLastError = "" :=
  ⟨allSucceed_returns_true _,
    (InitGeometry_true_iff Environment.allSucceed (State.initial Common.sample : State ℚ)).2
      (allSucceed_returns_true _)⟩

/-- Instance of C3: with the third texture file missing, `InitGeometry` returns false and
leaves the message of a first failing step. -/
theorem InitGeometry_false_witness :
    (InitGeometry (Environment.missingTexture "WoodDiffuseSpecular.dds")
        (State.initial Common.sample : State ℚ)).1 = Result.returned false ∧
      ∃ st, firstFailure (Environment.missingTexture "WoodDiffuseSpecular.dds") 256 256 = some st ∧
        (InitGeometry (Environment.missingTexture "WoodDiffuseSpecular.dds")
          (State.initial Common.sample : State ℚ)).2.common.gLastError =
            st.message (Environment.missingTexture "WoodDiffuseSpecular.dds") :=
  ⟨missingTexture_returns_false _,
    (InitGeometry_false (Environment.missingTexture "WoodDiffuseSpecular.dds")
      (State.initial Common.sample : State ℚ) (missingTexture_returns_false _)).imp
      fun _ h => ⟨h.1, h.2.1⟩⟩

/-- Instance of C4: in the sample program, started with the window's views in place and
nothing bound, after one render and one update the portal draw of the main pass finds
`gPortalTextureSRV` in slot 0. -/
theorem portal_draw_texture_witness :
    (InitGeometry Environment.allSucceed State.started).1 = Result.returned true ∧
    State.started.common.gBackBufferRenderTarget ≤ State.started.nextPtr ∧
    State.started.common.gDepthStencil ≤ State.started.nextPtr ∧
    ((nextFrameDraws Environment.allSucceed (Library.ofTrig (fun x => x) (fun x => x))
        Camera.null [Frame.render, Frame.update Keys.idle 1] State.started
        Pipeline.empty).map Draw.slotZero)[11]? =
      some ((running Environment.allSucceed (Library.ofTrig (fun x => x) (fun x => x))
          Camera.null [Frame.render, Frame.update Keys.idle 1] State.started).models.gPortal.ptr,
        (running Environment.allSucceed (Library.ofTrig (fun x => x) (fun x => x))
          Camera.null [Frame.render, Frame.update Keys.idle 1]
          State.started).common.gBackBufferRenderTarget,
        (running Environment.allSucceed (Library.ofTrig (fun x => x) (fun x => x))
          Camera.null [Frame.render, Frame.update Keys.idle 1]
          State.started).portal.gPortalTextureSRV,
        (running Environment.allSucceed (Library.ofTrig (fun x => x) (fun x => x))
          Camera.null [Frame.render, Frame.update Keys.idle 1]
          State.started).portal.gPortalTextureSRV) :=
  ⟨allSucceed_returns_true _, by decide, by decide,
    (portal_draw_texture Environment.allSucceed (Library.ofTrig (fun x => x) (fun x => x))
      Camera.null [Frame.render, Frame.update Keys.idle 1] State.started Pipeline.empty
      (allSucceed_returns_true _) (by decide) (by decide)
      (fun _ _ hv => Option.noConfusion hv)).2.2.1⟩

/-- Counterexample to C4 as stated: in the first frame of the sample program, started with
the window's views in place and nothing bound, slot 0 does not hold `gPortalTextureSRV` at
every draw of the portal model. -/
theorem portal_draw_texture_counterexample :
    portalDrawsHoldTexture
      (running Environment.allSucceed (Library.ofTrig (fun x => x) (fun x => x)) Camera.null []
        State.started)
      (nextFrameDraws Environment.allSucceed (Library.ofTrig (fun x => x) (fun x => x))
        Camera.null [] State.started Pipeline.empty) = false := by
  decide

/-- Instance of C5: in the sample scene `ReleaseResources` releases 40 objects. -/
theorem ReleaseResources_releases_created_witness :
    (InitGeometry Environment.allSucceed (State.initial Common.sample : State ℚ)).1 =
        Result.returned true ∧
      (releasedBy (newCalls State.sample (ReleaseResources State.sample))).length = 40 :=
  ⟨allSucceed_returns_true _,
    (ReleaseResources_releases_created Environment.allSucceed
      (Library.ofTrig (fun x => x) (fun x => x)) Camera.null (State.initial Common.sample)
      (allSucceed_returns_true _)).2.2.2.2.2.2.1⟩

/-- Instance of C9: from the initial state, after one render and two updates of one second
each with the real sine, the strength of light 2 lies between 0 and 7. -/
theorem UpdateScene_light2_strength_witness :
    (Library.ofTrig Real.sin Real.cos).sinf = Real.sin ∧
      (State.initial Common.sample : State ℝ).lights.gLight2MinStrength = 0 ∧
      (State.initial Common.sample : State ℝ).lights.gLight2MaxStrength = 7 ∧
      0 ≤ (UpdateScene (Library.ofTrig Real.sin Real.cos) Keys.idle 1
        (runFrames (Library.ofTrig Real.sin Real.cos) [Frame.render, Frame.update Keys.idle 1]
          (State.initial Common.sample))).lights.gLight2Strength ∧
      (UpdateScene (Library.ofTrig Real.sin Real.cos) Keys.idle 1
        (runFrames (Library.ofTrig Real.sin Real.cos) [Frame.render, Frame.update Keys.idle 1]
          (State.initial Common.sample))).lights.gLight2Strength ≤ 7 :=
  ⟨rfl, rfl, rfl,
    (UpdateScene_light2_strength (Library.ofTrig Real.sin Real.cos) rfl
      [Frame.render, Frame.update Keys.idle 1] Keys.idle 1 (State.initial Common.sample)
      rfl rfl).2.2.2.2.2.2⟩

/-- Instance of C10: from the initial state, after one render and two updates of one second
each with the real sine and cosine, light 1 is at the height of the cube. -/
theorem UpdateScene_light1_orbit_witness :
    (Library.ofTrig Real.sin Real.cos).cos = Real.cos ∧
      (Library.ofTrig Real.sin Real.cos).sin = Real.sin ∧
      (State.initial Common.sample : State ℝ).statics.rotate = 0 ∧
      (UpdateScene (Library.ofTrig Real.sin Real.cos) Keys.idle 1
        (runFrames (Library.ofTrig Real.sin Real.cos) [Frame.render, Frame.update Keys.idle 1]
          (State.initial Common.sample))).models.gLight1.position.y =
      (UpdateScene (Library.ofTrig Real.sin Real.cos) Keys.idle 1
        (runFrames (Library.ofTrig Real.sin Real.cos) [Frame.render, Frame.update Keys.idle 1]
          (State.initial Common.sample))).models.gCube.position.y :=
  ⟨rfl, rfl, rfl,
    (UpdateScene_light1_orbit (Library.ofTrig Real.sin Real.cos) rfl rfl
      [Frame.render, Frame.update Keys.idle 1] Keys.idle 1 (State.initial Common.sample)
      rfl).2.1⟩

end Scene
